import Mathlib

/-!
Verification of the cap-table evolution and returns engine of the
captable-tool repository (js/calculations.js, js/models.js, js/errors.js,
js/utils.js, js/config.js).

JavaScript numbers are IEEE-754 doubles.  We embed them as the type JNum:
a finite rational, positive infinity, negative infinity, or NaN, with the
JS semantics of the arithmetic operators, comparisons, Math.floor, Math.max,
Math.abs and truthiness used by the engine.  Finite values are exact
rationals rather than doubles; every claim below concerns exact quantities,
tolerance windows of 0.1, or value-independent structure, so the binary
rounding of doubles is immaterial, while the Infinity/NaN behaviour (which
several claims hinge on) is modelled exactly.  Math.pow, the one
transcendental operation (used only by calculateIRR), is taken as an
explicit function parameter.  Negative zero is identified with zero; the
engine never distinguishes them.
-/

/-- A JavaScript number: finite rational, Infinity, -Infinity, or NaN. -/
inductive JNum where
  | fin (q : ℚ)
  | inf
  | ninf
  | nan
deriving DecidableEq, Repr

/-- JS unary negation. -/
def jneg : JNum → JNum
  | .fin q => .fin (-q)
  | .inf => .ninf
  | .ninf => .inf
  | .nan => .nan

/-- JS addition. -/
def jadd : JNum → JNum → JNum
  | .nan, _ => .nan
  | _, .nan => .nan
  | .inf, .ninf => .nan
  | .ninf, .inf => .nan
  | .inf, _ => .inf
  | _, .inf => .inf
  | .ninf, _ => .ninf
  | _, .ninf => .ninf
  | .fin a, .fin b => .fin (a + b)

/-- JS subtraction. -/
def jsub : JNum → JNum → JNum
  | .nan, _ => .nan
  | _, .nan => .nan
  | .inf, .inf => .nan
  | .ninf, .ninf => .nan
  | .inf, _ => .inf
  | .ninf, _ => .ninf
  | _, .inf => .ninf
  | _, .ninf => .inf
  | .fin a, .fin b => .fin (a - b)

/-- JS multiplication (Infinity times zero is NaN). -/
def jmul : JNum → JNum → JNum
  | .nan, _ => .nan
  | _, .nan => .nan
  | .inf, .inf => .inf
  | .inf, .ninf => .ninf
  | .ninf, .inf => .ninf
  | .ninf, .ninf => .inf
  | .inf, .fin b => if b = 0 then .nan else if 0 < b then .inf else .ninf
  | .ninf, .fin b => if b = 0 then .nan else if 0 < b then .ninf else .inf
  | .fin a, .inf => if a = 0 then .nan else if 0 < a then .inf else .ninf
  | .fin a, .ninf => if a = 0 then .nan else if 0 < a then .ninf else .inf
  | .fin a, .fin b => .fin (a * b)

/-- JS division (x/0 is a signed infinity for x nonzero, 0/0 is NaN;
finite/infinite is 0, infinite/infinite is NaN). -/
def jdiv : JNum → JNum → JNum
  | .nan, _ => .nan
  | _, .nan => .nan
  | .inf, .inf => .nan
  | .inf, .ninf => .nan
  | .ninf, .inf => .nan
  | .ninf, .ninf => .nan
  | .inf, .fin b => if 0 ≤ b then .inf else .ninf
  | .ninf, .fin b => if 0 ≤ b then .ninf else .inf
  | .fin _, .inf => .fin 0
  | .fin _, .ninf => .fin 0
  | .fin a, .fin b =>
      if b = 0 then (if a = 0 then .nan else if 0 < a then .inf else .ninf)
      else .fin (a / b)

/-- Math.floor. -/
def jfloor : JNum → JNum
  | .fin q => .fin (⌊q⌋ : ℤ)
  | .inf => .inf
  | .ninf => .ninf
  | .nan => .nan

/-- Math.abs. -/
def jabs : JNum → JNum
  | .fin q => .fin |q|
  | .inf => .inf
  | .ninf => .inf
  | .nan => .nan

/-- Math.max of two arguments (NaN-propagating, as in JS). -/
def jmax2 : JNum → JNum → JNum
  | .nan, _ => .nan
  | _, .nan => .nan
  | .inf, _ => .inf
  | _, .inf => .inf
  | .ninf, x => x
  | x, .ninf => x
  | .fin a, .fin b => .fin (max a b)

/-- JS strict less-than (false whenever either side is NaN). -/
def jlt : JNum → JNum → Bool
  | .nan, _ => false
  | _, .nan => false
  | .fin a, .fin b => a < b
  | .fin _, .inf => true
  | .fin _, .ninf => false
  | .inf, _ => false
  | .ninf, .ninf => false
  | .ninf, _ => true

/-- Is this value NaN. -/
def jIsNaN : JNum → Bool
  | .nan => true
  | _ => false

/-- JS less-or-equal: false when either side is NaN, otherwise the negation
of the reversed strict comparison. -/
def jle (a b : JNum) : Bool :=
  if jIsNaN a || jIsNaN b then false else !(jlt b a)

/-- JS strict greater-than. -/
def jgt (a b : JNum) : Bool := jlt b a

/-- JS strict equality on numbers (NaN equals nothing, including itself). -/
def jstrictEq : JNum → JNum → Bool
  | .fin a, .fin b => a = b
  | .inf, .inf => true
  | .ninf, .ninf => true
  | _, _ => false

/-- JS truthiness of a number: zero and NaN are falsy. -/
def jTruthy : JNum → Bool
  | .fin q => q ≠ 0
  | .inf => true
  | .ninf => true
  | .nan => false

/-- JS expression v || d for numbers v, d. -/
def jsOrNum (v d : JNum) : JNum := if jTruthy v then v else d

/-- JS expression v || 0, the defaulting used by the CapTableStage
constructor. -/
def jsOrZero (v : JNum) : JNum := jsOrNum v (.fin 0)

/-- JS expression s || d for strings (empty string is falsy). -/
def jsOrStr (s d : String) : String := if s = "" then d else s

/-- Number.isInteger. -/
def jIsInteger : JNum → Bool
  | .fin q => q.den = 1
  | _ => false

/-- parseFloat(x.toFixed(1)): rounding to one decimal place.  On finite
values we round half up; Infinity and NaN round-trip through the strings
"Infinity" and "NaN" back to themselves. -/
def round1 : JNum → JNum
  | .fin q => .fin ((round (q * 10) : ℤ) / 10 : ℚ)
  | .inf => .inf
  | .ninf => .ninf
  | .nan => .nan

/-- Decimal rendering of a rational to two places (used only inside the
ownership-validation error message, mirroring total.toFixed(2)). -/
def ratToFixed2 (q : ℚ) : String :=
  let n : ℤ := round (q * 100)
  let m : ℕ := n.natAbs
  let frac : ℕ := m % 100
  (if n < 0 then "-" else "") ++ toString (m / 100) ++ "." ++
    (if frac < 10 then "0" else "") ++ toString frac

/-- x.toFixed(2) for a JS number. -/
def jToFixed2 : JNum → String
  | .fin q => ratToFixed2 q
  | .inf => "Infinity"
  | .ninf => "-Infinity"
  | .nan => "NaN"

/-!
Error model (js/errors.js).  ValidationError carries a field name, a message
and, for the aggregates thrown by validateCompanyData and
validateFundingRound, the list of collected sub-errors.  In the source the
sub-errors stored in the aggregate value are always leaf ValidationErrors,
so we model them as field/message pairs.  CalculationError carries its
operation name and message, DataError its data-type tag and message; the
contextual data snapshots attached to errors (plain-object dumps used only
for debugging, never read back by the engine) are not modelled.
-/

/-- A leaf ValidationError: offending field and message. -/
structure VLeaf where
  field : String
  message : String
deriving DecidableEq, Repr

/-- The application error taxonomy of js/errors.js as raised by the engine:
ValidationError, CalculationError, DataError. -/
inductive JsError where
  | validationError (field : String) (message : String) (subErrors : List VLeaf)
  | calculationError (operation : String) (message : String)
  | dataError (dataType : String) (message : String)
deriving DecidableEq, Repr

/-- The message property of an error (all three classes extend Error). -/
def JsError.msg : JsError → String
  | .validationError _ m _ => m
  | .calculationError _ m => m
  | .dataError _ m => m

/-- Is a result an ok value. -/
def exceptIsOk {ε α : Type} : Except ε α → Bool
  | .ok _ => true
  | .error _ => false

/-- Does a returns-engine result carry a DataError. -/
def exceptIsDataError {α : Type} : Except JsError α → Bool
  | .error (.dataError _ _) => true
  | _ => false

/-!
Configuration constants (js/config.js) used by the engine, and the ambient
clock.  DateUtils.getCurrentYear() reads the real clock; the engine uses it
only as a fallback (incorporation year when there are no rounds, constructor
defaults for absent year fields), so we fix it as a constant.
-/

/-- DateUtils.getCurrentYear(), fixed as a constant: the engine consults the
clock only for fallback defaults, never for the dilution math. -/
def CURRENT_YEAR : ℚ := 2025

/-- CONFIG.ROUND_TYPES. -/
def ROUND_TYPES : List String :=
  ["Bootstrap", "Pre-Seed", "Seed", "Series A", "Series B", "Series C",
   "Series D", "Growth", "SAFE", "Convertible"]

/-- CONFIG.CURRENCIES keys. -/
def CURRENCY_CODES : List String := ["GBP", "USD", "EUR"]

/-!
Data models (js/models.js).  A FundingRound carries the fields its
constructor stores.  The id field and the four calculated fields
(postMoneyValuation, equityPercentage, sharesIssued, ownershipPercent) are
initialised to null by the constructor and never read by the calculation
engine, so they are omitted here.
-/

/-- FundingRound (js/models.js). -/
structure FundingRound where
  type : String
  year : JNum
  preMoneyValuation : JNum
  investment : JNum
  revenue : JNum
  liquidationPref : String
  antiDilution : String
  discountRate : JNum
deriving DecidableEq, Repr

/-- Company (js/models.js). -/
structure Company where
  companyName : String
  currency : String
  founderShares : JNum
  optionPoolPercent : JNum
  optionPoolTopUp : Bool
  useRevenueMultiples : Bool
  exitYear : JNum
  exitValuation : JNum
  exitMultiple : JNum
  rounds : List FundingRound
deriving DecidableEq, Repr

/-- One liquidation-stack entry, as pushed by CapTableCalculator._processRound. -/
structure StackEntry where
  round : String
  investment : JNum
  preference : String
  shares : JNum
  year : JNum
  ownershipPercent : JNum
deriving DecidableEq, Repr

/-- CapTableStage (js/models.js). -/
structure CapTableStage where
  stage : String
  year : JNum
  totalShares : JNum
  founderShares : JNum
  optionPoolShares : JNum
  investorShares : JNum
  newInvestorShares : JNum
  round : Option FundingRound
  liquidationStack : List StackEntry
  founderOwnership : JNum
  optionPoolOwnership : JNum
  investorOwnership : JNum
  newInvestorOwnership : JNum
  preMoneyValuation : JNum
  postMoneyValuation : JNum
  investment : JNum
  revenue : JNum
  revenueMultiple : JNum
deriving DecidableEq, Repr

/-- The CapTableStage constructor at the two call sites of the calculator.
Every numeric field goes through the constructor defaulting x || 0
(respectively data.year || currentYear and data.stage || Incorporation);
ownership percentages are never passed by the calculator and start at 0;
the liquidation stack is passed directly (arrays, even empty, are truthy). -/
def mkStage (stageName : String) (year totalShares founderShares optionPoolShares
    investorShares newInvestorShares : JNum) (round : Option FundingRound)
    (liquidationStack : List StackEntry)
    (preMoneyValuation postMoneyValuation investment revenue revenueMultiple : JNum) :
    CapTableStage :=
  { stage := jsOrStr stageName "Incorporation"
    year := jsOrNum year (.fin CURRENT_YEAR)
    totalShares := jsOrZero totalShares
    founderShares := jsOrZero founderShares
    optionPoolShares := jsOrZero optionPoolShares
    investorShares := jsOrZero investorShares
    newInvestorShares := jsOrZero newInvestorShares
    round := round
    liquidationStack := liquidationStack
    founderOwnership := .fin 0
    optionPoolOwnership := .fin 0
    investorOwnership := .fin 0
    newInvestorOwnership := .fin 0
    preMoneyValuation := jsOrZero preMoneyValuation
    postMoneyValuation := jsOrZero postMoneyValuation
    investment := jsOrZero investment
    revenue := jsOrZero revenue
    revenueMultiple := jsOrZero revenueMultiple }

/-- NumberUtils.calculatePercentage with the default of one decimal place
(the only precision the engine uses): 0 when the whole is (strictly) 0,
otherwise parseFloat(((part / whole) * 100).toFixed(1)). -/
def calculatePercentage (part whole : JNum) : JNum :=
  if jstrictEq whole (.fin 0) then .fin 0
  else round1 (jmul (jdiv part whole) (.fin 100))

/-- CapTableStage.calculateOwnership: no-op when totalShares === 0, else
recompute the four ownership percentages from the share counts. -/
def calculateOwnership (s : CapTableStage) : CapTableStage :=
  if jstrictEq s.totalShares (.fin 0) then s
  else
    { s with
      founderOwnership := calculatePercentage s.founderShares s.totalShares
      optionPoolOwnership := calculatePercentage s.optionPoolShares s.totalShares
      investorOwnership := calculatePercentage s.investorShares s.totalShares
      newInvestorOwnership := calculatePercentage s.newInvestorShares s.totalShares }

/-- CapTableStage.validateOwnership: fatal CalculationError when the three
ownership percentages total more than 0.1 away from 100 (a NaN total
compares false and passes). -/
def validateOwnership (s : CapTableStage) : Except JsError Unit :=
  let total := jadd (jadd s.founderOwnership s.optionPoolOwnership) s.investorOwnership
  if jgt (jabs (jsub total (.fin 100))) (.fin (1/10)) then
    .error (.calculationError "ownership_validation"
      ("Ownership percentages total " ++ jToFixed2 total ++ "%, expected 100%"))
  else .ok ()

/-- Company.getInitialOptionPoolShares:
floor(founderShares * optionPoolPercent / (100 - optionPoolPercent)).
At optionPoolPercent = 100 this divides by zero. -/
def getInitialOptionPoolShares (c : Company) : JNum :=
  jfloor (jdiv (jmul c.founderShares c.optionPoolPercent)
    (jsub (.fin 100) c.optionPoolPercent))

/-- Stable insertion of a round into a list sorted ascending by year
(a later round with an equal year goes after the existing ones). -/
def sortInsertByYear (r : FundingRound) : List FundingRound → List FundingRound
  | [] => [r]
  | y :: ys => if jlt r.year y.year then r :: y :: ys else y :: sortInsertByYear r ys

/-- Company.getRoundsByYear: DataUtils.sortBy on a copy of rounds, by year
ascending; JS sort is stable, realised here as a stable insertion sort. -/
def getRoundsByYear (c : Company) : List FundingRound :=
  c.rounds.foldl (fun acc r => sortInsertByYear r acc) []

/-!
Validator (js/errors.js).  The engine always hands the individual
validators actual numbers (fields parsed upstream), so the string-parsing
branch of validateNumber and the null/undefined arm of validateRequired are
unreachable; validateRequired on a number therefore always passes (0 would
not pass in JS only for null/undefined/empty-string, none of which a JNum
can be).  Bounds at every call site are integers, rendered in messages with
toString.
-/

/-- Validator.validateRequired for string-valued fields. -/
def validateRequiredStr (value fieldName : String) : Except VLeaf String :=
  if value = "" then .error ⟨fieldName, fieldName ++ " is required"⟩ else .ok value

/-- Validator.validateNumber: NaN check, then optional lower and upper
bounds (an infinity fails a present upper bound, passes a lower one). -/
def validateNumber (value : JNum) (fieldName : String) (min max : Option ℤ) :
    Except VLeaf JNum :=
  if jIsNaN value then
    .error ⟨fieldName, fieldName ++ " must be a valid number"⟩
  else
    match min with
    | some m =>
        if jlt value (.fin m) then
          .error ⟨fieldName, fieldName ++ " must be at least " ++ toString m⟩
        else
          match max with
          | some x =>
              if jgt value (.fin x) then
                .error ⟨fieldName, fieldName ++ " must be no more than " ++ toString x⟩
              else .ok value
          | none => .ok value
    | none =>
        match max with
        | some x =>
            if jgt value (.fin x) then
              .error ⟨fieldName, fieldName ++ " must be no more than " ++ toString x⟩
            else .ok value
        | none => .ok value

/-- Validator.validateInteger. -/
def validateInteger (value : JNum) (fieldName : String) (min max : Option ℤ) :
    Except VLeaf JNum :=
  match validateNumber value fieldName min max with
  | .error e => .error e
  | .ok num =>
      if jIsInteger num then .ok num
      else .error ⟨fieldName, fieldName ++ " must be a whole number"⟩

/-- Validator.validateYear: integer in [CONFIG.VALIDATION.MIN_YEAR,
CONFIG.VALIDATION.MAX_YEAR] = [2020, 2050]. -/
def validateYear (value : JNum) (fieldName : String) : Except VLeaf JNum :=
  validateInteger value fieldName (some 2020) (some 2050)

/-- Validator.validatePercentage: number in [0, 100]. -/
def validatePercentage (value : JNum) (fieldName : String) : Except VLeaf JNum :=
  validateNumber value fieldName (some 0) (some 100)

/-- Validator.validateCurrency: required, and a key of CONFIG.CURRENCIES. -/
def validateCurrency (value fieldName : String) : Except VLeaf String :=
  if value = "" then .error ⟨fieldName, fieldName ++ " is required"⟩
  else if value ∈ CURRENCY_CODES then .ok value
  else .error ⟨fieldName, "Invalid currency: " ++ value⟩

/-- Validator.validateRoundType: required, and in CONFIG.ROUND_TYPES. -/
def validateRoundType (value fieldName : String) : Except VLeaf String :=
  if value = "" then .error ⟨fieldName, fieldName ++ " is required"⟩
  else if value ∈ ROUND_TYPES then .ok value
  else .error ⟨fieldName, "Invalid round type: " ++ value⟩

/-- The errors collected by one try/catch slot of an aggregate validator. -/
def errsOf {α : Type} : Except VLeaf α → List VLeaf
  | .ok _ => []
  | .error e => [e]

/-- Validator.validateCompanyData: runs all six company-level checks,
collecting every failure, and raises one aggregate ValidationError when any
failed (bounds from CONFIG.VALIDATION). -/
def validateCompanyData (c : Company) : Except JsError Unit :=
  let errors :=
    errsOf (validateRequiredStr c.companyName "Company Name") ++
    errsOf (validateInteger c.founderShares "Founder Shares" (some 1) (some 1000000000)) ++
    errsOf (validatePercentage c.optionPoolPercent "Option Pool Percentage") ++
    errsOf (validateCurrency c.currency "Currency") ++
    errsOf (validateYear c.exitYear "Exit Year") ++
    errsOf (validateNumber c.exitValuation "Exit Valuation" (some 1) (some 1000000000000))
  if errors.isEmpty then .ok ()
  else .error (.validationError "Company Data"
    (toString errors.length ++ " validation error(s)") errors)

/-- Validator.validateFundingRound: runs all five per-round checks,
collecting every failure, and raises one aggregate ValidationError when any
failed. -/
def validateFundingRound (r : FundingRound) : Except JsError Unit :=
  let errors :=
    errsOf (validateRoundType r.type "Round Type") ++
    errsOf (validateYear r.year "Round Year") ++
    errsOf (validateNumber r.preMoneyValuation "Pre-Money Valuation" (some 1) (some 1000000000000)) ++
    errsOf (validateNumber r.investment "Investment Amount" (some 1) (some 1000000000000)) ++
    errsOf (validateNumber r.revenue "Revenue" (some 0) none)
  if errors.isEmpty then .ok ()
  else .error (.validationError "Funding Round"
    (toString errors.length ++ " validation error(s) in " ++ r.type) errors)

/-- The forEach loop of Company.validate: validate each round in original
insertion order, rethrowing the first failure as
ValidationError(Round index+1, message) and stopping there. -/
def validateRoundsLoop : List FundingRound → ℕ → Except JsError Unit
  | [], _ => .ok ()
  | r :: rs, idx =>
      match validateFundingRound r with
      | .ok _ => validateRoundsLoop rs (idx + 1)
      | .error e => .error (.validationError ("Round " ++ toString (idx + 1)) e.msg [])

/-- Company.validate: company-level aggregate first (raising immediately if
it fails), then the per-round loop. -/
def companyValidate (c : Company) : Except JsError Unit :=
  match validateCompanyData c with
  | .error e => .error e
  | .ok _ => validateRoundsLoop c.rounds 0

/-!
The evolution engine (js/calculations.js).
-/

/-- The incorporation-stage year: firstRoundYear - 1 when rounds[0]?.year
is truthy, else the current year. -/
def incorporationYear (firstRoundYear : Option JNum) : JNum :=
  match firstRoundYear with
  | some y => if jTruthy y then jsub y (.fin 1) else .fin CURRENT_YEAR
  | none => .fin CURRENT_YEAR

/-- CapTableCalculator._createIncorporationStage.  No try/catch here: a
validateOwnership failure propagates raw to calculateEvolution. -/
def createIncorporationStage (founderShares optionPoolShares : JNum)
    (firstRoundYear : Option JNum) : Except JsError CapTableStage :=
  let totalShares := jadd founderShares optionPoolShares
  let year : JNum := incorporationYear firstRoundYear
  let stage := calculateOwnership (mkStage "Incorporation" year totalShares
    founderShares optionPoolShares (.fin 0) (.fin 0) none []
    (.fin 0) (.fin 0) (.fin 0) (.fin 0) (.fin 0))
  match validateOwnership stage with
  | .ok _ => .ok stage
  | .error e => .error e

/-- CapTableCalculator._processRound.  Mirrors the source line by line; the
only throwing operation inside the try block is validateOwnership, whose
error the catch wraps in CalculationError(round_processing, ...). -/
def processRound (round : FundingRound) (founderShares optionPoolShares
    totalInvestorShares : JNum) (company : Company)
    (previousStage : CapTableStage) : Except JsError CapTableStage :=
  let postMoneyValuation := jadd round.preMoneyValuation round.investment
  let investorOwnershipPercent := jmul (jdiv round.investment postMoneyValuation) (.fin 100)
  let totalSharesBefore := jadd (jadd founderShares optionPoolShares) totalInvestorShares
  let newInvestorShares := jfloor (jdiv (jmul totalSharesBefore investorOwnershipPercent)
    (jsub (.fin 100) investorOwnershipPercent))
  let topUpAndPool : JNum × JNum :=
    if company.optionPoolTopUp then
      let targetOptionPoolShares := jfloor (jdiv (jmul
        (jadd totalSharesBefore newInvestorShares) company.optionPoolPercent) (.fin 100))
      let optionPoolTopUpShares := jmax2 (.fin 0) (jsub targetOptionPoolShares optionPoolShares)
      (optionPoolTopUpShares, jadd optionPoolShares optionPoolTopUpShares)
    else ((.fin 0), optionPoolShares)
  let optionPoolTopUpShares := topUpAndPool.1
  let optionPoolShares2 := topUpAndPool.2
  let newTotalInvestorShares := jadd totalInvestorShares newInvestorShares
  let totalSharesAfter := jadd (jadd totalSharesBefore newInvestorShares) optionPoolTopUpShares
  let entry : StackEntry :=
    { round := round.type
      investment := round.investment
      preference := round.liquidationPref
      shares := newInvestorShares
      year := round.year
      ownershipPercent := jmul (jdiv newInvestorShares totalSharesAfter) (.fin 100) }
  let liquidationStack := previousStage.liquidationStack ++ [entry]
  let revenueMultiple :=
    if jgt round.revenue (.fin 0) then jdiv postMoneyValuation round.revenue else .fin 0
  let stage := calculateOwnership (mkStage round.type round.year totalSharesAfter
    founderShares optionPoolShares2 newTotalInvestorShares newInvestorShares
    (some round) liquidationStack round.preMoneyValuation postMoneyValuation
    round.investment round.revenue revenueMultiple)
  match validateOwnership stage with
  | .ok _ => .ok stage
  | .error e => .error (.calculationError "round_processing"
      ("Failed to process " ++ round.type ++ " round: " ++ e.msg))

/-- The per-round loop of calculateEvolution: the tracking variables are
updated from the produced stage (optionPoolShares := stage.optionPoolShares,
totalInvestorShares := stage.investorShares) and the stage becomes the new
previous stage. -/
def processRounds (company : Company) : List FundingRound → JNum → JNum →
    CapTableStage → Except JsError (List CapTableStage)
  | [], _, _, _ => .ok []
  | r :: rs, optionPoolShares, totalInvestorShares, prev =>
      match processRound r company.founderShares optionPoolShares
          totalInvestorShares company prev with
      | .error e => .error e
      | .ok stage =>
          match processRounds company rs stage.optionPoolShares stage.investorShares stage with
          | .error e => .error e
          | .ok rest => .ok (stage :: rest)

/-- CapTableCalculator.calculateEvolution: validate, sort rounds by year,
emit the incorporation stage then one stage per round; any error raised
inside is wrapped in CalculationError(cap_table_evolution, ...). -/
def calculateEvolution (company : Company) : Except JsError (List CapTableStage) :=
  let body : Except JsError (List CapTableStage) :=
    match companyValidate company with
    | .error e => .error e
    | .ok _ =>
        let rounds := getRoundsByYear company
        let founderShares := company.founderShares
        let optionPoolShares := getInitialOptionPoolShares company
        match createIncorporationStage founderShares optionPoolShares
            ((rounds.head?).map FundingRound.year) with
        | .error e => .error e
        | .ok incorporationStage =>
            match processRounds company rounds optionPoolShares (.fin 0) incorporationStage with
            | .error e => .error e
            | .ok rest => .ok (incorporationStage :: rest)
  match body with
  | .ok stages => .ok stages
  | .error e => .error (.calculationError "cap_table_evolution"
      ("Failed to calculate cap table evolution: " ++ e.msg))

/-!
The returns engine and IRR (js/calculations.js, js/utils.js).  Math.pow is
the one operation with no exact rational semantics; every definition that
needs it takes an explicit powImpl parameter standing for Math.pow, and the
theorems below either hold for every powImpl or describe the result in
terms of powImpl.
-/

/-- DateUtils.yearsBetween: max(0, endYear - startYear). -/
def yearsBetween (startYear endYear : JNum) : JNum :=
  jmax2 (.fin 0) (jsub endYear startYear)

/-- NumberUtils.calculateIRR.  powImpl stands for Math.pow. -/
def calculateIRR (powImpl : JNum → JNum → JNum)
    (investment returnAmount years : JNum) : JNum :=
  if jle years (.fin 0) || jle investment (.fin 0) then .fin 0
  else
    let multiple := jdiv returnAmount investment
    if jle multiple (.fin 0) then .fin (-100)
    else jmul (jsub (powImpl multiple (jdiv (.fin 1) years)) (.fin 1)) (.fin 100)

/-- FundingRound.getRevenueMultiple followed by the call-site defaulting
getRevenueMultiple() || 0: null (revenue <= 0) becomes 0, and a falsy
number defaults to 0 as well. -/
def getRevenueMultipleOr0 (r : FundingRound) : JNum :=
  if jle r.revenue (.fin 0) then .fin 0
  else jsOrZero (jdiv r.preMoneyValuation r.revenue)

/-- A per-round return record as pushed by _calculateRoundReturns. -/
structure RoundReturn where
  round : String
  year : JNum
  investment : JNum
  yearsHeld : JNum
  exitValue : JNum
  multipleOfMoney : JNum
  irr : JNum
  revenue : JNum
  revenueMultiple : JNum
  ownershipPercent : JNum
deriving DecidableEq, Repr

/-- ReturnsAnalysis (js/models.js) as constructed by calculateReturns.  The
liquidationWaterfall field is always the empty placeholder. -/
structure ReturnsAnalysis where
  exitValuation : JNum
  exitYear : JNum
  founderReturn : JNum
  esopReturn : JNum
  totalInvestorReturn : JNum
  roundReturns : List RoundReturn
  finalOwnershipFounders : JNum
  finalOwnershipEsop : JNum
  finalOwnershipInvestors : JNum
deriving DecidableEq, Repr

/-- CapTableCalculator._calculateRoundReturns: for each original round (in
insertion order), find its liquidation-stack entry by strict equality on
round type and year; missing entries are skipped with a console warning
(non-fatal).  Nothing inside the per-round try block can throw in this
model (pure arithmetic). -/
def calculateRoundReturns (powImpl : JNum → JNum → JNum) :
    List FundingRound → List StackEntry → JNum → JNum → List RoundReturn
  | [], _, _, _ => []
  | r :: rs, liquidationStack, exitValuation, exitYear =>
      let rest := calculateRoundReturns powImpl rs liquidationStack exitValuation exitYear
      let yearsHeld := yearsBetween r.year exitYear
      match liquidationStack.find? (fun e => e.round == r.type && jstrictEq e.year r.year) with
      | none => rest
      | some entry =>
          let investorReturn := jmul (jdiv entry.ownershipPercent (.fin 100)) exitValuation
          let multipleOfMoney :=
            if jgt r.investment (.fin 0) then jdiv investorReturn r.investment else .fin 0
          let irr := calculateIRR powImpl r.investment investorReturn yearsHeld
          { round := r.type
            year := r.year
            investment := r.investment
            yearsHeld := yearsHeld
            exitValue := investorReturn
            multipleOfMoney := multipleOfMoney
            irr := irr
            revenue := r.revenue
            revenueMultiple := getRevenueMultipleOr0 r
            ownershipPercent := entry.ownershipPercent } :: rest

/-- CapTableCalculator.calculateReturns.  The empty-evolution check throws
a DataError, but the blanket catch of the method wraps every error raised
inside the try block, that DataError included, in
CalculationError(returns_calculation, ...). -/
def calculateReturns (powImpl : JNum → JNum → JNum)
    (capTableEvolution : List CapTableStage) (company : Company) :
    Except JsError ReturnsAnalysis :=
  let body : Except JsError ReturnsAnalysis :=
    match capTableEvolution.getLast? with
    | none => .error (.dataError "cap_table" "Cap table evolution is empty")
    | some finalStage =>
        let exitValuation := company.exitValuation
        let exitYear := company.exitYear
        let founderReturn := jmul (jdiv finalStage.founderOwnership (.fin 100)) exitValuation
        let esopReturn := jmul (jdiv finalStage.optionPoolOwnership (.fin 100)) exitValuation
        let totalInvestorReturn := jmul (jdiv finalStage.investorOwnership (.fin 100)) exitValuation
        let roundReturns := calculateRoundReturns powImpl company.rounds
          finalStage.liquidationStack exitValuation exitYear
        .ok
          { exitValuation := exitValuation
            exitYear := exitYear
            founderReturn := founderReturn
            esopReturn := esopReturn
            totalInvestorReturn := totalInvestorReturn
            roundReturns := roundReturns
            finalOwnershipFounders := finalStage.founderOwnership
            finalOwnershipEsop := finalStage.optionPoolOwnership
            finalOwnershipInvestors := finalStage.investorOwnership }
  match body with
  | .ok r => .ok r
  | .error e => .error (.calculationError "returns_calculation"
      ("Failed to calculate returns: " ++ e.msg))

/-!
The sensitivity engine (js/calculations.js) and the object round-trip it
uses to clone the company (Company.toObject followed by the Company and
FundingRound constructors, js/models.js).
-/

/-- new FundingRound(roundObject.toObject()): the constructor re-applies
its || defaults to the plain-object copy.  CONFIG.DEFAULTS.ROUND has no
TYPE key, so an empty type stays empty (undefined in JS; both are rejected
identically by validateRoundType). -/
def roundCtorClone (r : FundingRound) : FundingRound :=
  { type := r.type
    year := jsOrNum r.year (.fin CURRENT_YEAR)
    preMoneyValuation := jsOrNum r.preMoneyValuation (.fin 5000000)
    investment := jsOrNum r.investment (.fin 1000000)
    revenue := jsOrZero r.revenue
    liquidationPref := jsOrStr r.liquidationPref "1x"
    antiDilution := jsOrStr r.antiDilution "none"
    discountRate := jsOrZero r.discountRate }

/-- new Company(company.toObject()): a deep clone through plain objects,
with the Company constructor re-applying its defaults (CONFIG.DEFAULTS). -/
def cloneViaToObject (c : Company) : Company :=
  { companyName := c.companyName
    currency := jsOrStr c.currency "GBP"
    founderShares := jsOrNum c.founderShares (.fin 10000000)
    optionPoolPercent := jsOrNum c.optionPoolPercent (.fin 20)
    optionPoolTopUp := c.optionPoolTopUp
    useRevenueMultiples := c.useRevenueMultiples
    exitYear := jsOrNum c.exitYear (.fin (CURRENT_YEAR + 6))
    exitValuation := jsOrNum c.exitValuation (.fin 100000000)
    exitMultiple := jsOrNum c.exitMultiple (.fin 5)
    rounds := c.rounds.map roundCtorClone }

/-- The assignment modifiedCompany.rounds[roundIndex].preMoneyValuation = v
on a freshly constructed company. -/
def setRoundPreMoney (c : Company) (i : ℕ) (v : JNum) : Company :=
  { c with rounds :=
      match c.rounds.get? i with
      | some r => c.rounds.set i { r with preMoneyValuation := v }
      | none => c.rounds }

/-- One sensitivity scenario (CONFIG.SENSITIVITY.SCENARIOS shape).  The JS
field named class is rendered cls here. -/
structure Scenario where
  label : String
  multiplier : JNum
  cls : String
deriving DecidableEq, Repr

/-- CONFIG.SENSITIVITY.SCENARIOS. -/
def SENSITIVITY_SCENARIOS : List Scenario :=
  [⟨"-20%", .fin (8/10), "text-danger"⟩,
   ⟨"-10%", .fin (9/10), "text-warning"⟩,
   ⟨"Base", .fin 1, "fw-bold"⟩,
   ⟨"+10%", .fin (11/10), "text-success"⟩,
   ⟨"+20%", .fin (12/10), "text-success"⟩]

/-- A scenario result: the success record pushed on a normal run, or the
error-tagged record pushed when that scenario's recomputation threw. -/
inductive ScenarioResult where
  | success (label cls : String)
      (multiplier preMoneyValuation founderReturn esopReturn totalInvestorReturn
        roundMultiple roundIRR : JNum)
  | failure (label cls : String) (errorMessage : String)
deriving DecidableEq, Repr

/-- CapTableCalculator.calculateSensitivityScenarios.  Each scenario clones
the company through toObject and the constructors, overwrites the cloned
target round's pre-money valuation, and reruns Evolution+Returns; a
scenario failure is captured in its result entry, not rethrown.  The only
mutation in the source, the pre-money assignment, lands on the
freshly-constructed clone: nothing reachable from the company argument is
written to.  The returned pair makes that caller-visible final state
explicit: its second component is the company as the caller observes it
after the call. -/
def calculateSensitivityScenarios (powImpl : JNum → JNum → JNum)
    (company : Company) (roundIndex : ℕ) (scenarios : List Scenario) :
    Except JsError (List ScenarioResult × Company) :=
  let body : Except JsError (List ScenarioResult × Company) :=
    match company.rounds.get? roundIndex with
    | none => .error (.dataError "round" ("Round index " ++ toString roundIndex ++ " not found"))
    | some baselineRound =>
        .ok (scenarios.map (fun scenario =>
          let modifiedCompany := setRoundPreMoney (cloneViaToObject company) roundIndex
            (jmul baselineRound.preMoneyValuation scenario.multiplier)
          let run : Except JsError ReturnsAnalysis :=
            match calculateEvolution modifiedCompany with
            | .error e => .error e
            | .ok capTable => calculateReturns powImpl capTable modifiedCompany
          match run with
          | .error e => .failure scenario.label scenario.cls e.msg
          | .ok returns =>
              let roundReturn := returns.roundReturns.find?
                (fun r => r.round == baselineRound.type)
              .success scenario.label scenario.cls scenario.multiplier
                (match modifiedCompany.rounds.get? roundIndex with
                 | some r => r.preMoneyValuation
                 | none => .nan)
                returns.founderReturn returns.esopReturn returns.totalInvestorReturn
                (match roundReturn with | some rr => rr.multipleOfMoney | none => .fin 0)
                (match roundReturn with | some rr => rr.irr | none => .fin 0)), company)
  match body with
  | .ok r => .ok r
  | .error e => .error (.calculationError "sensitivity_analysis"
      ("Failed to calculate sensitivity scenarios: " ++ e.msg))

/-- The company as the caller observes it after a call to
calculateSensitivityScenarios (on a throw the argument is equally
untouched). -/
def sensitivityCompanyAfter (powImpl : JNum → JNum → JNum)
    (company : Company) (roundIndex : ℕ) (scenarios : List Scenario) : Company :=
  match calculateSensitivityScenarios powImpl company roundIndex scenarios with
  | .ok (_, c) => c
  | .error _ => company

/-!
Derived observations used by the claims.
-/

/-- The stage list of a successful evolution run (empty on error). -/
def evoStages (c : Company) : List CapTableStage :=
  match calculateEvolution c with
  | .ok stages => stages
  | .error _ => []

/-- The ownership-conservation property of one stage as the specification
states it: founderOwnership + optionPoolOwnership + investorOwnership is a
(finite) value within 0.1 of 100.0.  A NaN or infinite total is not within
0.1 of 100. -/
def conservationOk (s : CapTableStage) : Bool :=
  match jadd (jadd s.founderOwnership s.optionPoolOwnership) s.investorOwnership with
  | .fin t => |t - 100| ≤ 1/10
  | _ => false

/-- Forgetting the two fields the dilution math is claimed never to read:
a round with its anti-dilution tag and discount rate normalised away. -/
def stripRound (r : FundingRound) : FundingRound :=
  { r with antiDilution := "none", discountRate := .fin 0 }

/-- A company up to the anti-dilution and discount-rate fields of its
rounds: two companies are identical except for those fields exactly when
their stripCompany images are equal. -/
def stripCompany (c : Company) : Company :=
  { c with rounds := c.rounds.map stripRound }

/-- A stage up to the anti-dilution and discount-rate fields of its
embedded round record (the only place a stage stores them; share counts,
ownership percentages and the liquidation stack are untouched). -/
def stripStage (s : CapTableStage) : CapTableStage :=
  { s with round := s.round.map stripRound }

/-- An evolution result up to anti-dilution and discount-rate fields. -/
def stripEvo (x : Except JsError (List CapTableStage)) :
    Except JsError (List CapTableStage) :=
  match x with
  | .ok stages => .ok (stages.map stripStage)
  | .error e => .error e

/-!
Concrete inputs used by the claim theorems, their counterexamples and
their witnesses.
-/

/-- A funding round literal with the given type, year, pre-money valuation,
investment and revenue, default liquidation preference, no anti-dilution,
zero discount rate. -/
def mkRound (t : String) (y pre inv rev : ℚ) : FundingRound :=
  { type := t, year := .fin y, preMoneyValuation := .fin pre,
    investment := .fin inv, revenue := .fin rev,
    liquidationPref := "1x", antiDilution := "none", discountRate := .fin 0 }

/-- An otherwise-valid company with optionPoolPercent = 100 and no rounds:
validation accepts it (100 lies inside [0,100]) and
getInitialOptionPoolShares divides by zero on it. -/
def fullPoolCompany : Company :=
  { companyName := "NaNCo", currency := "GBP", founderShares := .fin 1000000,
    optionPoolPercent := .fin 100, optionPoolTopUp := true,
    useRevenueMultiples := true, exitYear := .fin 2025,
    exitValuation := .fin 1000000, exitMultiple := .fin 5, rounds := [] }

/-- A second otherwise-valid company with optionPoolPercent = 100 and no
rounds. -/
def fullPoolCompany2 : Company :=
  { companyName := "EdgeCo", currency := "USD", founderShares := .fin 2000000,
    optionPoolPercent := .fin 100, optionPoolTopUp := false,
    useRevenueMultiples := true, exitYear := .fin 2030,
    exitValuation := .fin 5000000, exitMultiple := .fin 5, rounds := [] }

/-- A round whose only violation is a negative revenue. -/
def negativeRevenueRound : FundingRound := mkRound "Seed" 2025 5000000 1000000 (-5)

/-- A company with one company-level violation (empty name) and one
round-level violation (negative revenue in its only round): two violations
in total, in different validators. -/
def twoViolationCompany : Company :=
  { companyName := "", currency := "GBP", founderShares := .fin 1000000,
    optionPoolPercent := .fin 20, optionPoolTopUp := true,
    useRevenueMultiples := true, exitYear := .fin 2025,
    exitValuation := .fin 1000000, exitMultiple := .fin 5,
    rounds := [negativeRevenueRound] }

/-- A round rejected for its unsupported type label. -/
def badTypeRound : FundingRound := mkRound "Angel" 2025 5000000 1000000 0

/-- A company whose company-level fields are all valid but whose two rounds
are both invalid (unsupported type, then negative revenue). -/
def twoBadRoundsCompany : Company :=
  { companyName := "Duo", currency := "EUR", founderShares := .fin 1000000,
    optionPoolPercent := .fin 10, optionPoolTopUp := true,
    useRevenueMultiples := true, exitYear := .fin 2026,
    exitValuation := .fin 2000000, exitMultiple := .fin 5,
    rounds := [badTypeRound, negativeRevenueRound] }

/-- An arbitrary company used to exercise calculateReturns on an empty
stage sequence. -/
def plainCompany : Company :=
  { companyName := "Plain", currency := "GBP", founderShares := .fin 1000000,
    optionPoolPercent := .fin 10, optionPoolTopUp := true,
    useRevenueMultiples := true, exitYear := .fin 2030,
    exitValuation := .fin 10000000, exitMultiple := .fin 5, rounds := [] }

/-- A valid two-round company (Seed 2025, Series A 2027). -/
def twoRoundCompany : Company :=
  { companyName := "Duo2", currency := "GBP", founderShares := .fin 10000000,
    optionPoolPercent := .fin 15, optionPoolTopUp := true,
    useRevenueMultiples := true, exitYear := .fin 2031,
    exitValuation := .fin 80000000, exitMultiple := .fin 4,
    rounds := [mkRound "Seed" 2025 4000000 1000000 0,
               mkRound "Series A" 2027 12000000 3000000 500000] }

/-- A valid two-round company without pool top-up (Seed 2024, Series A 2026). -/
def twoRoundCompanyNoTopUp : Company :=
  { companyName := "Trio", currency := "USD", founderShares := .fin 8000000,
    optionPoolPercent := .fin 12, optionPoolTopUp := false,
    useRevenueMultiples := false, exitYear := .fin 2032,
    exitValuation := .fin 60000000, exitMultiple := .fin 3,
    rounds := [mkRound "Seed" 2024 3000000 1000000 0,
               mkRound "Series A" 2026 9000000 2000000 250000] }

/-- A one-round company whose round carries a weighted-average
anti-dilution tag and a nonzero discount rate. -/
def adCompanyA : Company :=
  { companyName := "ADCo", currency := "GBP", founderShares := .fin 5000000,
    optionPoolPercent := .fin 10, optionPoolTopUp := true,
    useRevenueMultiples := true, exitYear := .fin 2030,
    exitValuation := .fin 20000000, exitMultiple := .fin 5,
    rounds := [{ type := "Seed", year := .fin 2025,
                 preMoneyValuation := .fin 5000000, investment := .fin 1000000,
                 revenue := .fin 0, liquidationPref := "1x",
                 antiDilution := "weighted-average", discountRate := .fin 20 }] }

/-- The same company as adCompanyA except for the anti-dilution tag and
discount rate of its round. -/
def adCompanyB : Company :=
  { adCompanyA with
    rounds := [{ type := "Seed", year := .fin 2025,
                 preMoneyValuation := .fin 5000000, investment := .fin 1000000,
                 revenue := .fin 0, liquidationPref := "1x",
                 antiDilution := "full-ratchet", discountRate := .fin 0 }] }

/-- Decidable equality of results, used to evaluate the engine at concrete
inputs inside proofs. -/
instance {ε α : Type} [DecidableEq ε] [DecidableEq α] : DecidableEq (Except ε α) :=
  fun x y =>
    match x, y with
    | .ok a, .ok b => if h : a = b then .isTrue (by simp [h]) else .isFalse (by simp [h])
    | .error a, .error b => if h : a = b then .isTrue (by simp [h]) else .isFalse (by simp [h])
    | .ok _, .error _ => .isFalse (by simp)
    | .error _, .ok _ => .isFalse (by simp)

/-- The stage sequence calculateEvolution produces for twoRoundCompany. -/
def twoRoundStages : List CapTableStage :=
  [{ stage := "Incorporation", year := .fin 2024, totalShares := .fin 11764705,
     founderShares := .fin 10000000, optionPoolShares := .fin 1764705,
     investorShares := .fin 0, newInvestorShares := .fin 0, round := none,
     liquidationStack := [], founderOwnership := .fin 85,
     optionPoolOwnership := .fin 15, investorOwnership := .fin 0,
     newInvestorOwnership := .fin 0, preMoneyValuation := .fin 0,
     postMoneyValuation := .fin 0, investment := .fin 0, revenue := .fin 0,
     revenueMultiple := .fin 0 },
   { stage := "Seed", year := .fin 2025, totalShares := .fin 15147058,
     founderShares := .fin 10000000, optionPoolShares := .fin 2205882,
     investorShares := .fin 2941176, newInvestorShares := .fin 2941176,
     round := some (mkRound "Seed" 2025 4000000 1000000 0),
     liquidationStack :=
       [{ round := "Seed", investment := .fin 1000000, preference := "1x",
          shares := .fin 2941176, year := .fin 2025,
          ownershipPercent := .fin (147058800/7573529) }],
     founderOwnership := .fin 66, optionPoolOwnership := .fin (73/5),
     investorOwnership := .fin (97/5), newInvestorOwnership := .fin (97/5),
     preMoneyValuation := .fin 4000000, postMoneyValuation := .fin 5000000,
     investment := .fin 1000000, revenue := .fin 0, revenueMultiple := .fin 0 },
   { stage := "Series A", year := .fin 2027, totalShares := .fin 19568013,
     founderShares := .fin 10000000, optionPoolShares := .fin 2840073,
     investorShares := .fin 6727940, newInvestorShares := .fin 3786764,
     round := some (mkRound "Series A" 2027 12000000 3000000 500000),
     liquidationStack :=
       [{ round := "Seed", investment := .fin 1000000, preference := "1x",
          shares := .fin 2941176, year := .fin 2025,
          ownershipPercent := .fin (147058800/7573529) },
        { round := "Series A", investment := .fin 3000000, preference := "1x",
          shares := .fin 3786764, year := .fin 2027,
          ownershipPercent := .fin (378676400/19568013) }],
     founderOwnership := .fin (511/10), optionPoolOwnership := .fin (29/2),
     investorOwnership := .fin (172/5), newInvestorOwnership := .fin (97/5),
     preMoneyValuation := .fin 12000000, postMoneyValuation := .fin 15000000,
     investment := .fin 3000000, revenue := .fin 500000, revenueMultiple := .fin 30 }]

/-- The stage sequence calculateEvolution produces for
twoRoundCompanyNoTopUp. -/
def noTopUpStages : List CapTableStage :=
  [{ stage := "Incorporation", year := .fin 2023, totalShares := .fin 9090909,
     founderShares := .fin 8000000, optionPoolShares := .fin 1090909,
     investorShares := .fin 0, newInvestorShares := .fin 0, round := none,
     liquidationStack := [], founderOwnership := .fin 88,
     optionPoolOwnership := .fin 12, investorOwnership := .fin 0,
     newInvestorOwnership := .fin 0, preMoneyValuation := .fin 0,
     postMoneyValuation := .fin 0, investment := .fin 0, revenue := .fin 0,
     revenueMultiple := .fin 0 },
   { stage := "Seed", year := .fin 2024, totalShares := .fin 12121212,
     founderShares := .fin 8000000, optionPoolShares := .fin 1090909,
     investorShares := .fin 3030303, newInvestorShares := .fin 3030303,
     round := some (mkRound "Seed" 2024 3000000 1000000 0),
     liquidationStack :=
       [{ round := "Seed", investment := .fin 1000000, preference := "1x",
          shares := .fin 3030303, year := .fin 2024,
          ownershipPercent := .fin 25 }],
     founderOwnership := .fin 66, optionPoolOwnership := .fin 9,
     investorOwnership := .fin 25, newInvestorOwnership := .fin 25,
     preMoneyValuation := .fin 3000000, postMoneyValuation := .fin 4000000,
     investment := .fin 1000000, revenue := .fin 0, revenueMultiple := .fin 0 },
   { stage := "Series A", year := .fin 2026, totalShares := .fin 14814814,
     founderShares := .fin 8000000, optionPoolShares := .fin 1090909,
     investorShares := .fin 5723905, newInvestorShares := .fin 2693602,
     round := some (mkRound "Series A" 2026 9000000 2000000 250000),
     liquidationStack :=
       [{ round := "Seed", investment := .fin 1000000, preference := "1x",
          shares := .fin 3030303, year := .fin 2024,
          ownershipPercent := .fin 25 },
        { round := "Series A", investment := .fin 2000000, preference := "1x",
          shares := .fin 2693602, year := .fin 2026,
          ownershipPercent := .fin (134680100/7407407) }],
     founderOwnership := .fin 54, optionPoolOwnership := .fin (37/5),
     investorOwnership := .fin (193/5), newInvestorOwnership := .fin (91/5),
     preMoneyValuation := .fin 9000000, postMoneyValuation := .fin 11000000,
     investment := .fin 2000000, revenue := .fin 250000, revenueMultiple := .fin 44 }]

/-- The investor ownership percentage a round buys:
(investment / (preMoney + investment)) * 100, as computed in _processRound. -/
def investorPctOf (r : FundingRound) : JNum :=
  jmul (jdiv r.investment (jadd r.preMoneyValuation r.investment)) (.fin 100)

/-- The new investor shares issued for a round:
floor(before * pct / (100 - pct)), as computed in _processRound. -/
def newInvestorSharesOf (before pct : JNum) : JNum :=
  jfloor (jdiv (jmul before pct) (jsub (.fin 100) pct))

/-- The option-pool top-up issued for a round (zero when top-up is off), as
computed in _processRound. -/
def topUpSharesOf (c : Company) (before newShares pool : JNum) : JNum :=
  if c.optionPoolTopUp then
    jmax2 (.fin 0)
      (jsub (jfloor (jdiv (jmul (jadd before newShares) c.optionPoolPercent) (.fin 100))) pool)
  else .fin 0

/-- Loop invariant of the evolution engine, finite regime: the pool and
cumulative investor share counts are finite and nonnegative, and the
previous stage records the total founder + pool + investors. -/
def FinState (f : ℚ) (pool inv tot : JNum) : Prop :=
  ∃ pq iq : ℚ, pool = .fin pq ∧ inv = .fin iq ∧ 0 ≤ pq ∧ 0 ≤ iq ∧
    tot = .fin (f + pq + iq)

/-- Loop invariant, infinite regime (reachable only at
optionPoolPercent = 100, where the initial pool division by zero produces
Infinity): pool and total are Infinity and the investor count is a
nonnegative rational or Infinity. -/
def InfState (pool inv tot : JNum) : Prop :=
  pool = .inf ∧ tot = .inf ∧ (inv = .inf ∨ ∃ iq : ℚ, inv = .fin iq ∧ 0 ≤ iq)

/-- The loop invariant of calculateEvolution for a validated company with
founder shares f and option-pool percentage p. -/
def GoodState (f p : ℚ) (pool inv tot : JNum) : Prop :=
  FinState f pool inv tot ∨ (p = 100 ∧ InfState pool inv tot)

/-!
Lemma kit: behaviour of the JNum operations on finite values, and what a
successful validation guarantees about the validated fields.
-/

theorem jadd_fin (a b : ℚ) : jadd (.fin a) (.fin b) = .fin (a + b) := rfl

theorem jsub_fin (a b : ℚ) : jsub (.fin a) (.fin b) = .fin (a - b) := rfl

theorem jmul_fin (a b : ℚ) : jmul (.fin a) (.fin b) = .fin (a * b) := rfl

theorem jmax2_fin (a b : ℚ) : jmax2 (.fin a) (.fin b) = .fin (max a b) := rfl

theorem jfloor_fin (a : ℚ) : jfloor (.fin a) = .fin (⌊a⌋ : ℤ) := rfl

theorem jdiv_fin_of_ne (a : ℚ) {b : ℚ} (hb : b ≠ 0) :
    jdiv (.fin a) (.fin b) = .fin (a / b) := by
  simp [jdiv, hb]

theorem jlt_fin (a b : ℚ) : jlt (.fin a) (.fin b) = decide (a < b) := rfl

theorem jle_fin (a b : ℚ) : jle (.fin a) (.fin b) = decide (a ≤ b) := by
  by_cases h : b < a
  · simp [jle, jIsNaN, jlt, h, not_le.mpr h]
  · simp [jle, jIsNaN, jlt, h, not_lt.mp h]

theorem jgt_fin (a b : ℚ) : jgt (.fin a) (.fin b) = decide (b < a) := rfl

theorem jstrictEq_fin (a b : ℚ) : jstrictEq (.fin a) (.fin b) = decide (a = b) := rfl

theorem jsOrZero_fin (q : ℚ) : jsOrZero (.fin q) = .fin q := by
  by_cases h : q = 0 <;> simp [jsOrZero, jsOrNum, jTruthy, h]

theorem jsOrZero_inf : jsOrZero .inf = .inf := rfl

theorem jsOrZero_nan : jsOrZero .nan = .fin 0 := rfl

theorem validateNumber_ok_bounds {v : JNum} {fld : String} {m M : ℤ} {x : JNum}
    (h : validateNumber v fld (some m) (some M) = .ok x) :
    ∃ q : ℚ, v = .fin q ∧ (m : ℚ) ≤ q ∧ q ≤ (M : ℚ) := by
  cases v with
  | fin q =>
      simp only [validateNumber, jIsNaN, jlt, jgt, Bool.false_eq_true, if_false,
        decide_eq_true_eq] at h
      split_ifs at h with h1 h2
      exact ⟨q, rfl, not_lt.mp h1, not_lt.mp h2⟩
  | inf => simp [validateNumber, jIsNaN, jlt, jgt] at h
  | ninf => simp [validateNumber, jIsNaN, jlt, jgt] at h
  | nan => simp [validateNumber, jIsNaN] at h

theorem validateInteger_ok_bounds {v : JNum} {fld : String} {m M : ℤ} {x : JNum}
    (h : validateInteger v fld (some m) (some M) = .ok x) :
    ∃ q : ℚ, v = .fin q ∧ (m : ℚ) ≤ q ∧ q ≤ (M : ℚ) := by
  unfold validateInteger at h
  cases hn : validateNumber v fld (some m) (some M) with
  | error e => rw [hn] at h; exact absurd h (by simp)
  | ok y => exact validateNumber_ok_bounds hn

theorem errsOf_nil {α : Type} {x : Except VLeaf α} (h : errsOf x = []) :
    ∃ y, x = .ok y := by
  cases x with
  | ok y => exact ⟨y, rfl⟩
  | error e => simp [errsOf] at h

/-- A successful company-level validation pins founderShares to a finite
rational at least 1 and optionPoolPercent to a finite rational in [0, 100]. -/
theorem validateCompanyData_ok_facts {c : Company}
    (h : validateCompanyData c = .ok ()) :
    (∃ f : ℚ, c.founderShares = .fin f ∧ 1 ≤ f) ∧
    (∃ p : ℚ, c.optionPoolPercent = .fin p ∧ 0 ≤ p ∧ p ≤ 100) := by
  simp only [validateCompanyData] at h
  split at h
  case isFalse => exact absurd h (by simp)
  case isTrue hemp =>
    rw [List.isEmpty_iff] at hemp
    obtain ⟨h15, -⟩ := List.append_eq_nil.mp hemp
    obtain ⟨h14, -⟩ := List.append_eq_nil.mp h15
    obtain ⟨h13, -⟩ := List.append_eq_nil.mp h14
    obtain ⟨h12, h3⟩ := List.append_eq_nil.mp h13
    obtain ⟨-, h2⟩ := List.append_eq_nil.mp h12
    obtain ⟨y2, hy2⟩ := errsOf_nil h2
    obtain ⟨y3, hy3⟩ := errsOf_nil h3
    constructor
    · obtain ⟨f, hf, hf1, -⟩ := validateInteger_ok_bounds hy2
      exact ⟨f, hf, by exact_mod_cast hf1⟩
    · obtain ⟨p, hp, hp0, hp100⟩ := validateNumber_ok_bounds hy3
      exact ⟨p, hp, by exact_mod_cast hp0, by exact_mod_cast hp100⟩

/-- A successful round validation pins the pre-money valuation and the
investment to finite rationals at least 1. -/
theorem validateFundingRound_ok_facts {r : FundingRound}
    (h : validateFundingRound r = .ok ()) :
    (∃ a : ℚ, r.preMoneyValuation = .fin a ∧ 1 ≤ a) ∧
    (∃ b : ℚ, r.investment = .fin b ∧ 1 ≤ b) := by
  simp only [validateFundingRound] at h
  split at h
  case isFalse => exact absurd h (by simp)
  case isTrue hemp =>
    rw [List.isEmpty_iff] at hemp
    obtain ⟨h14, -⟩ := List.append_eq_nil.mp hemp
    obtain ⟨h13, h4⟩ := List.append_eq_nil.mp h14
    obtain ⟨h12, h3⟩ := List.append_eq_nil.mp h13
    obtain ⟨y3, hy3⟩ := errsOf_nil h3
    obtain ⟨y4, hy4⟩ := errsOf_nil h4
    constructor
    · obtain ⟨a, ha, ha1, -⟩ := validateNumber_ok_bounds hy3
      exact ⟨a, ha, by exact_mod_cast ha1⟩
    · obtain ⟨b, hb, hb1, -⟩ := validateNumber_ok_bounds hy4
      exact ⟨b, hb, by exact_mod_cast hb1⟩

theorem validateRoundsLoop_ok {rs : List FundingRound} {idx : ℕ}
    (h : validateRoundsLoop rs idx = .ok ()) :
    ∀ r ∈ rs, validateFundingRound r = .ok () := by
  induction rs generalizing idx with
  | nil => intro r hr; exact absurd hr (by simp)
  | cons a as ih =>
      intro r hr
      unfold validateRoundsLoop at h
      cases ha : validateFundingRound a with
      | error e => rw [ha] at h; exact absurd h (by simp)
      | ok y =>
          rw [ha] at h
          rcases List.mem_cons.mp hr with rfl | hmem
          · cases y; exact ha
          · exact ih h r hmem

theorem companyValidate_ok {c : Company} (h : companyValidate c = .ok ()) :
    validateCompanyData c = .ok () ∧
    ∀ r ∈ c.rounds, validateFundingRound r = .ok () := by
  unfold companyValidate at h
  cases hv : validateCompanyData c with
  | error e => rw [hv] at h; exact absurd h (by simp)
  | ok y =>
      cases y
      rw [hv] at h
      exact ⟨rfl, validateRoundsLoop_ok h⟩

theorem sortInsertByYear_mem {x r : FundingRound} {l : List FundingRound}
    (h : x ∈ sortInsertByYear r l) : x = r ∨ x ∈ l := by
  induction l with
  | nil => simpa [sortInsertByYear] using h
  | cons a as ih =>
      unfold sortInsertByYear at h
      split at h
      · rcases List.mem_cons.mp h with rfl | hm
        · exact .inl rfl
        · exact .inr hm
      · rcases List.mem_cons.mp h with rfl | hm
        · exact .inr (List.mem_cons_self _ _)
        · rcases ih hm with rfl | hm2
          · exact .inl rfl
          · exact .inr (List.mem_cons_of_mem _ hm2)

theorem getRoundsByYear_mem {c : Company} {x : FundingRound}
    (h : x ∈ getRoundsByYear c) : x ∈ c.rounds := by
  unfold getRoundsByYear at h
  suffices hgen : ∀ (l acc : List FundingRound),
      x ∈ l.foldl (fun acc r => sortInsertByYear r acc) acc → x ∈ acc ∨ x ∈ l by
    rcases hgen c.rounds [] h with hacc | hl
    · exact absurd hacc (by simp)
    · exact hl
  intro l
  induction l with
  | nil => intro acc hacc; exact .inl hacc
  | cons a as ih =>
      intro acc hacc
      rcases ih _ hacc with hins | hmem
      · rcases sortInsertByYear_mem hins with rfl | hacc2
        · exact .inr (List.mem_cons_self _ _)
        · exact .inl hacc2
      · exact .inr (List.mem_cons_of_mem _ hmem)

/-- C7: the per-round IRR function returns 0 when yearsHeld or investment
is not positive; returns exactly -100 (the total-loss floor) when the
multiple exitValue/investment is not positive; and otherwise returns
(multiple^(1/yearsHeld) - 1) * 100 with Math.pow.  In particular a round
with investment 1,000,000, exit value 0 and positive years held yields
exactly -100, not NaN and not negative infinity. -/
theorem C7_irr_spec (powImpl : JNum → JNum → JNum)
    (investment returnAmount years : JNum) :
    ((jle years (.fin 0) || jle investment (.fin 0)) = true →
      calculateIRR powImpl investment returnAmount years = .fin 0) ∧
    ((jle years (.fin 0) || jle investment (.fin 0)) = false →
      jle (jdiv returnAmount investment) (.fin 0) = true →
      calculateIRR powImpl investment returnAmount years = .fin (-100)) ∧
    ((jle years (.fin 0) || jle investment (.fin 0)) = false →
      jle (jdiv returnAmount investment) (.fin 0) = false →
      calculateIRR powImpl investment returnAmount years =
        jmul (jsub (powImpl (jdiv returnAmount investment) (jdiv (.fin 1) years))
          (.fin 1)) (.fin 100)) ∧
    (investment = .fin 1000000 → returnAmount = .fin 0 →
      jgt years (.fin 0) = true →
      calculateIRR powImpl investment returnAmount years = .fin (-100) ∧
      calculateIRR powImpl investment returnAmount years ≠ .nan ∧
      calculateIRR powImpl investment returnAmount years ≠ .ninf) := by
  refine ⟨?_, ?_, ?_, ?_⟩
  · intro h; simp [calculateIRR, h]
  · intro h1 h2; simp [calculateIRR, h1, h2]
  · intro h1 h2; simp [calculateIRR, h1, h2]
  · rintro rfl rfl hy
    have hyle : jle years (.fin 0) = false := by
      cases years with
      | fin q =>
          simp only [jgt, jlt, decide_eq_true_eq] at hy
          simp [jle, jIsNaN, jlt, not_le.mpr hy, hy]
      | inf => simp [jle, jIsNaN, jlt]
      | ninf => simp [jgt, jlt] at hy
      | nan => simp [jgt, jlt] at hy
    have hinv : jle (.fin (1000000 : ℚ)) (.fin 0) = false := by
      rw [jle_fin]; norm_num
    have hdiv : jdiv (.fin (0 : ℚ)) (.fin (1000000 : ℚ)) = .fin 0 := by
      rw [jdiv_fin_of_ne _ (by norm_num)]; norm_num
    have hguard : (jle years (.fin 0) || jle (.fin (1000000:ℚ)) (.fin 0)) = false := by
      rw [hyle, hinv]; rfl
    have hmle : jle (jdiv (.fin (0:ℚ)) (.fin (1000000:ℚ))) (.fin 0) = true := by
      rw [hdiv, jle_fin]; norm_num
    have h00 : jle (.fin (0:ℚ)) (.fin 0) = true := by rw [jle_fin]; norm_num
    refine ⟨?_, ?_, ?_⟩ <;> simp [calculateIRR, hguard, hdiv, hmle, h00]

/-- C7 witness: the IRR floor branch at investment 1,000,000, exit value 0,
5 years held. -/
theorem C7_irr_spec_witness :
    calculateIRR (fun _ _ => JNum.nan) (.fin 1000000) (.fin 0) (.fin 5) = .fin (-100) :=
  ((C7_irr_spec (fun _ _ => JNum.nan) (.fin 1000000) (.fin 0) (.fin 5)).2.2.2
    rfl rfl (by decide)).1

/-- C4 counterexample: calculateReturns on an empty stage sequence does not
fail with a DataError as the claim states: the error the caller receives is
a CalculationError (the internally raised DataError is swallowed by the
blanket catch and rewrapped). -/
theorem C4_dataerror_counterexample :
    exceptIsDataError (calculateReturns (fun _ _ => JNum.nan) [] plainCompany) = false ∧
    calculateReturns (fun _ _ => JNum.nan) [] plainCompany =
      .error (.calculationError "returns_calculation"
        "Failed to calculate returns: Cap table evolution is empty") := by
  constructor
  · simp [calculateReturns, exceptIsDataError, JsError.msg]
  · simp [calculateReturns, JsError.msg]

/-- C4 amended: for every company and every Math.pow implementation,
calculateReturns on an empty stage sequence fails with a CalculationError
whose operation is returns_calculation and whose message wraps the message
of the DataError raised internally for the empty cap table. -/
theorem C4_empty_stages_amended (powImpl : JNum → JNum → JNum) (c : Company) :
    calculateReturns powImpl [] c =
      .error (.calculationError "returns_calculation"
        "Failed to calculate returns: Cap table evolution is empty") := by
  simp [calculateReturns, JsError.msg]

/-- C3 counterexample: a company with one company-level violation (empty
name) and one round-level violation (negative revenue) has two violations,
yet the single raised aggregate ValidationError lists only the
company-level one; the round violation (exhibited by the second conjunct)
is absent from the raised error. -/
theorem C3_aggregation_counterexample :
    companyValidate twoViolationCompany =
      .error (.validationError "Company Data" "1 validation error(s)"
        [⟨"Company Name", "Company Name is required"⟩]) ∧
    validateFundingRound negativeRevenueRound =
      .error (.validationError "Funding Round" "1 validation error(s) in Seed"
        [⟨"Revenue", "Revenue must be at least 0"⟩]) := by
  constructor <;> decide

/-- C3 amended: validation is exhaustive only within one validator.  All
company-level violations are collected into one aggregate, but if any
exists that aggregate is raised before any round is examined; when the
company-level fields pass, rounds are checked in order and the first
invalid round aborts the loop, its aggregate rewrapped as
ValidationError(Round index+1, message) with the sub-error list dropped, so
violations in later rounds are not reported. -/
theorem C3_validation_aggregation_amended (c : Company) :
    (∀ e, validateCompanyData c = .error e → companyValidate c = .error e) ∧
    (validateCompanyData c = .ok () →
      ∀ pre r post e, c.rounds = pre ++ r :: post →
        (∀ r2 ∈ pre, validateFundingRound r2 = .ok ()) →
        validateFundingRound r = .error e →
        companyValidate c =
          .error (.validationError ("Round " ++ toString (pre.length + 1)) e.msg [])) := by
  constructor
  · intro e h
    unfold companyValidate
    rw [h]
  · intro hok pre r post e hsplit hpre herr
    unfold companyValidate
    rw [hok, hsplit]
    suffices hloop : ∀ (pre2 : List FundingRound) (idx : ℕ),
        (∀ r2 ∈ pre2, validateFundingRound r2 = .ok ()) →
        validateRoundsLoop (pre2 ++ r :: post) idx =
          .error (.validationError ("Round " ++ toString (idx + pre2.length + 1)) e.msg []) by
      have := hloop pre 0 hpre
      simpa using this
    intro pre2
    induction pre2 with
    | nil =>
        intro idx _
        simp [validateRoundsLoop, herr]
    | cons a as ih =>
        intro idx hpre2
        have ha : validateFundingRound a = .ok () := hpre2 a (List.mem_cons_self _ _)
        have has : ∀ r2 ∈ as, validateFundingRound r2 = .ok () :=
          fun r2 hr2 => hpre2 r2 (List.mem_cons_of_mem _ hr2)
        have h2 := ih (idx + 1) has
        have harith : idx + 1 + as.length + 1 = idx + (as.length + 1) + 1 := by omega
        rw [harith] at h2
        simpa [validateRoundsLoop, ha] using h2

/-- C3 witness: a company with valid company-level fields and two invalid
rounds is rejected with the Round 1 rewrap alone; the second round's
violation goes unreported. -/
theorem C3_validation_aggregation_witness :
    companyValidate twoBadRoundsCompany =
      .error (.validationError "Round 1" "1 validation error(s) in Angel" []) := by
  have h := (C3_validation_aggregation_amended twoBadRoundsCompany).2
    (by decide) [] badTypeRound [negativeRevenueRound]
    (.validationError "Funding Round" "1 validation error(s) in Angel"
      [⟨"Round Type", "Invalid round type: Angel"⟩])
    rfl (by simp) (by decide)
  simpa [JsError.msg] using h

set_option maxHeartbeats 2000000 in
/-- C1: the ownership-conservation property fails on the code.  The
otherwise-valid company fullPoolCompany (optionPoolPercent = 100, no
rounds) passes validation, calculateEvolution completes without any
CalculationError, and yet the returned Incorporation stage does not satisfy
founderOwnership + optionPoolOwnership + investorOwnership within 0.1 of
100: the option-pool ownership is NaN (division of Infinity by Infinity)
and the NaN total slips past the |total - 100| > 0.1 guard. -/
theorem C1_conservation_code_bug :
    companyValidate fullPoolCompany = .ok () ∧
    exceptIsOk (calculateEvolution fullPoolCompany) = true ∧
    (evoStages fullPoolCompany).all conservationOk = false := by
  have hv : companyValidate fullPoolCompany = .ok () := by decide
  refine ⟨hv, ?_, ?_⟩ <;>
  · simp only [fullPoolCompany] at hv
    have h1 : ("Incorporation" = "") = False := by decide
    norm_num [calculateEvolution, evoStages, hv, fullPoolCompany, getRoundsByYear,
      getInitialOptionPoolShares, createIncorporationStage, incorporationYear, processRounds, mkStage,
      calculateOwnership, calculatePercentage, validateOwnership, round1,
      jadd, jsub, jmul, jdiv, jfloor, jabs, jmax2, jlt, jle, jgt, jIsNaN, jstrictEq,
      jTruthy, jsOrNum, jsOrZero, jsOrStr, h1, CURRENT_YEAR, exceptIsOk, conservationOk,
      List.foldl]

set_option maxHeartbeats 2000000 in
/-- C10: there is a company accepted by validation, fullPoolCompany2 with
optionPoolPercent = 100 inside the accepted [0,100] range, whose initial
option-pool share count is not finite (the pool formula divides by
100 - 100 = 0 and Math.floor keeps the Infinity), for which the
ownership-sum check raises nothing (the NaN percentage total never
satisfies |total - 100| > 0.1), so calculateEvolution completes without the
promised fatal CalculationError even though its stages violate ownership
conservation. -/
theorem C10_full_pool_accepted_no_error :
    companyValidate fullPoolCompany2 = .ok () ∧
    getInitialOptionPoolShares fullPoolCompany2 = .inf ∧
    exceptIsOk (calculateEvolution fullPoolCompany2) = true ∧
    (evoStages fullPoolCompany2).all (fun s => exceptIsOk (validateOwnership s)) = true ∧
    (evoStages fullPoolCompany2).all conservationOk = false := by
  have hv : companyValidate fullPoolCompany2 = .ok () := by decide
  refine ⟨hv, ?_, ?_, ?_, ?_⟩ <;>
  · simp only [fullPoolCompany2] at hv
    have h1 : ("Incorporation" = "") = False := by decide
    norm_num [calculateEvolution, evoStages, hv, fullPoolCompany2, getRoundsByYear,
      getInitialOptionPoolShares, createIncorporationStage, incorporationYear, processRounds, mkStage,
      calculateOwnership, calculatePercentage, validateOwnership, round1,
      jadd, jsub, jmul, jdiv, jfloor, jabs, jmax2, jlt, jle, jgt, jIsNaN, jstrictEq,
      jTruthy, jsOrNum, jsOrZero, jsOrStr, h1, CURRENT_YEAR, exceptIsOk, conservationOk,
      List.foldl]

/-- C8: calculateSensitivityScenarios never mutates the company it is
given.  The source's only write lands on the round object of the clone
built from company.toObject() through the Company and FundingRound
constructors, so the company state the caller observes after the call is
the company it passed in, whatever the round index, scenario list and
Math.pow implementation. -/
theorem C8_sensitivity_isolation (powImpl : JNum → JNum → JNum) (c : Company)
    (roundIndex : ℕ) (scenarios : List Scenario) :
    sensitivityCompanyAfter powImpl c roundIndex scenarios = c := by
  unfold sensitivityCompanyAfter calculateSensitivityScenarios
  cases h : c.rounds.get? roundIndex <;> simp [h]

theorem calculateOwnership_shares (s : CapTableStage) :
    (calculateOwnership s).liquidationStack = s.liquidationStack ∧
    (calculateOwnership s).totalShares = s.totalShares ∧
    (calculateOwnership s).founderShares = s.founderShares ∧
    (calculateOwnership s).optionPoolShares = s.optionPoolShares ∧
    (calculateOwnership s).investorShares = s.investorShares := by
  unfold calculateOwnership
  split <;> simp

theorem calculateOwnership_round (s : CapTableStage) :
    (calculateOwnership s).round = s.round := by
  unfold calculateOwnership
  split <;> rfl

/-- A successful _processRound call returns a stage whose liquidation stack
is the previous stage's stack with exactly one new entry appended. -/
theorem processRound_ok_stack {r : FundingRound} {fS pool inv : JNum}
    {c : Company} {prev st : CapTableStage}
    (h : processRound r fS pool inv c prev = .ok st) :
    ∃ e, st.liquidationStack = prev.liquidationStack ++ [e] := by
  simp only [processRound] at h
  split at h
  case h_1 u heq =>
    cases h
    exact ⟨_, ((calculateOwnership_shares _).1.trans rfl)⟩
  case h_2 e heq => exact absurd h (by simp)

theorem processRounds_ok_stack_chain {c : Company} {rounds : List FundingRound} :
    ∀ {pool inv : JNum} {prev : CapTableStage} {stages : List CapTableStage},
    processRounds c rounds pool inv prev = .ok stages →
    List.Chain' (fun a b => ∃ e, b.liquidationStack = a.liquidationStack ++ [e])
      (prev :: stages) := by
  induction rounds with
  | nil =>
      intro pool inv prev stages h
      unfold processRounds at h
      simp at h
      subst h
      simp
  | cons r rs ih =>
      intro pool inv prev stages h
      unfold processRounds at h
      cases hp1 : processRound r c.founderShares pool inv c prev with
      | error e => rw [hp1] at h; simp at h
      | ok stage =>
          rw [hp1] at h
          dsimp only [] at h
          cases hp2 : processRounds c rs stage.optionPoolShares stage.investorShares stage with
          | error e => rw [hp2] at h; simp at h
          | ok rest =>
              rw [hp2] at h
              simp at h
              subst h
              exact List.Chain'.cons (processRound_ok_stack hp1) (ih hp2)

/-- Inversion of a successful calculateEvolution run into its pipeline. -/
theorem calculateEvolution_ok_inv {c : Company} {stages : List CapTableStage}
    (h : calculateEvolution c = .ok stages) :
    companyValidate c = .ok () ∧
    ∃ incorp rest,
      createIncorporationStage c.founderShares (getInitialOptionPoolShares c)
        (((getRoundsByYear c).head?).map FundingRound.year) = .ok incorp ∧
      processRounds c (getRoundsByYear c) (getInitialOptionPoolShares c) (.fin 0)
        incorp = .ok rest ∧
      stages = incorp :: rest := by
  simp only [calculateEvolution] at h
  cases hcv : companyValidate c with
  | error e => rw [hcv] at h; simp at h
  | ok u =>
      cases u
      rw [hcv] at h
      dsimp only [] at h
      cases hinc : createIncorporationStage c.founderShares (getInitialOptionPoolShares c)
          (((getRoundsByYear c).head?).map FundingRound.year) with
      | error e => rw [hinc] at h; simp at h
      | ok incorp =>
          rw [hinc] at h
          dsimp only [] at h
          cases hpr : processRounds c (getRoundsByYear c) (getInitialOptionPoolShares c)
              (.fin 0) incorp with
          | error e => rw [hpr] at h; simp at h
          | ok rest =>
              rw [hpr] at h
              simp at h
              exact ⟨rfl, incorp, rest, rfl, hpr, h.symm⟩

/-- C6: for every company accepted by calculateEvolution, each stage's
liquidation stack is the previous stage's stack extended by exactly one
entry, and every earlier entry, its recorded ownershipPercent value
included, is carried forward unchanged. -/
theorem C6_stack_append_only (c : Company) (stages : List CapTableStage)
    (h : calculateEvolution c = .ok stages) :
    List.Chain' (fun a b =>
      (∃ e, b.liquidationStack = a.liquidationStack ++ [e]) ∧
      b.liquidationStack.length = a.liquidationStack.length + 1 ∧
      ∀ i, i < a.liquidationStack.length →
        b.liquidationStack.get? i = a.liquidationStack.get? i) stages := by
  obtain ⟨-, incorp, rest, -, hpr, rfl⟩ := calculateEvolution_ok_inv h
  refine List.Chain'.imp ?_ (processRounds_ok_stack_chain hpr)
  rintro a b ⟨e, he⟩
  refine ⟨⟨e, he⟩, by simp [he], ?_⟩
  intro i hi
  rw [he, List.get?_append hi]

/-- The evolution of twoRoundCompanyNoTopUp evaluates to the recorded
three-stage sequence. -/
theorem noTopUpEvolution_eq :
    calculateEvolution twoRoundCompanyNoTopUp = .ok noTopUpStages := by
  have hv : companyValidate twoRoundCompanyNoTopUp = .ok () := by decide
  simp only [twoRoundCompanyNoTopUp, mkRound] at hv
  have h1 : ("Incorporation" = "") = False := by decide
  have h2 : ("Seed" = "") = False := by decide
  have h3 : ("Series A" = "") = False := by decide
  norm_num [calculateEvolution, hv, twoRoundCompanyNoTopUp, mkRound, noTopUpStages,
    getRoundsByYear, sortInsertByYear, getInitialOptionPoolShares,
    createIncorporationStage, incorporationYear, processRounds, processRound, mkStage,
    calculateOwnership, calculatePercentage, validateOwnership, round1, round_eq,
    jadd, jsub, jmul, jdiv, jfloor, jabs, jmax2, jlt, jle, jgt, jIsNaN, jstrictEq,
    jTruthy, jsOrNum, jsOrZero, jsOrStr, h1, h2, h3, CURRENT_YEAR, List.foldl]

/-- C6 witness: the append-only chain on the concrete three-stage run of
twoRoundCompanyNoTopUp. -/
theorem C6_stack_append_only_witness :
    List.Chain' (fun a b =>
      (∃ e, b.liquidationStack = a.liquidationStack ++ [e]) ∧
      b.liquidationStack.length = a.liquidationStack.length + 1 ∧
      ∀ i, i < a.liquidationStack.length →
        b.liquidationStack.get? i = a.liquidationStack.get? i) noTopUpStages :=
  C6_stack_append_only twoRoundCompanyNoTopUp noTopUpStages noTopUpEvolution_eq

theorem stripRound_type (r : FundingRound) : (stripRound r).type = r.type := rfl

theorem stripRound_year (r : FundingRound) : (stripRound r).year = r.year := rfl

theorem stripRound_preMoney (r : FundingRound) :
    (stripRound r).preMoneyValuation = r.preMoneyValuation := rfl

theorem stripRound_investment (r : FundingRound) :
    (stripRound r).investment = r.investment := rfl

theorem stripRound_revenue (r : FundingRound) : (stripRound r).revenue = r.revenue := rfl

theorem stripRound_liquidationPref (r : FundingRound) :
    (stripRound r).liquidationPref = r.liquidationPref := rfl

theorem stripCompany_rounds (c : Company) :
    (stripCompany c).rounds = c.rounds.map stripRound := rfl

theorem stripCompany_founderShares (c : Company) :
    (stripCompany c).founderShares = c.founderShares := rfl

theorem stripCompany_optionPoolPercent (c : Company) :
    (stripCompany c).optionPoolPercent = c.optionPoolPercent := rfl

theorem stripCompany_optionPoolTopUp (c : Company) :
    (stripCompany c).optionPoolTopUp = c.optionPoolTopUp := rfl

theorem stripStage_stack (s : CapTableStage) :
    (stripStage s).liquidationStack = s.liquidationStack := rfl

theorem stripStage_optionPoolShares (s : CapTableStage) :
    (stripStage s).optionPoolShares = s.optionPoolShares := rfl

theorem stripStage_investorShares (s : CapTableStage) :
    (stripStage s).investorShares = s.investorShares := rfl

theorem stripStage_of_round_none {s : CapTableStage} (h : s.round = none) :
    stripStage s = s := by
  cases s
  simp only [stripStage]
  simp_all

theorem validateFundingRound_strip (r : FundingRound) :
    validateFundingRound (stripRound r) = validateFundingRound r := rfl

theorem validateRoundsLoop_strip :
    ∀ (rs : List FundingRound) (idx : ℕ),
    validateRoundsLoop (rs.map stripRound) idx = validateRoundsLoop rs idx := by
  intro rs
  induction rs with
  | nil => intro idx; rfl
  | cons a as ih =>
      intro idx
      simp only [List.map_cons]
      unfold validateRoundsLoop
      rw [validateFundingRound_strip]
      cases h : validateFundingRound a <;> simp [h, ih]

theorem companyValidate_strip (c : Company) :
    companyValidate (stripCompany c) = companyValidate c := by
  unfold companyValidate
  have hd : validateCompanyData (stripCompany c) = validateCompanyData c := rfl
  rw [hd, stripCompany_rounds, validateRoundsLoop_strip]

theorem sortInsertByYear_strip (r : FundingRound) :
    ∀ l : List FundingRound,
    sortInsertByYear (stripRound r) (l.map stripRound) =
      (sortInsertByYear r l).map stripRound := by
  intro l
  induction l with
  | nil => rfl
  | cons y ys ih =>
      simp only [List.map_cons]
      unfold sortInsertByYear
      rw [stripRound_year, stripRound_year]
      split <;> simp_all

theorem getRoundsByYear_strip (c : Company) :
    getRoundsByYear (stripCompany c) = (getRoundsByYear c).map stripRound := by
  unfold getRoundsByYear
  rw [stripCompany_rounds]
  suffices hgen : ∀ (l acc : List FundingRound),
      (l.map stripRound).foldl (fun acc r => sortInsertByYear r acc) (acc.map stripRound) =
        (l.foldl (fun acc r => sortInsertByYear r acc) acc).map stripRound by
    simpa using hgen c.rounds []
  intro l
  induction l with
  | nil => intro acc; simp
  | cons a as ih =>
      intro acc
      simp only [List.map_cons, List.foldl_cons]
      rw [sortInsertByYear_strip, ih]

theorem mkStage_strip (n : String) (y t f o i ni : JNum) (r : FundingRound)
    (st : List StackEntry) (pm pom iv rv rm : JNum) :
    mkStage n y t f o i ni (some (stripRound r)) st pm pom iv rv rm =
      stripStage (mkStage n y t f o i ni (some r) st pm pom iv rv rm) := by
  simp [mkStage, stripStage]

theorem calculateOwnership_strip (s : CapTableStage) :
    calculateOwnership (stripStage s) = stripStage (calculateOwnership s) := by
  unfold calculateOwnership
  have ht : (stripStage s).totalShares = s.totalShares := rfl
  rw [ht]
  split
  · rfl
  · rfl

theorem validateOwnership_strip (s : CapTableStage) :
    validateOwnership (stripStage s) = validateOwnership s := rfl

theorem processRound_strip (r : FundingRound) (fS pool inv : JNum) (c : Company)
    (prev : CapTableStage) :
    processRound (stripRound r) fS pool inv (stripCompany c) (stripStage prev) =
      (processRound r fS pool inv c prev).map stripStage := by
  unfold processRound
  simp only [stripRound_type, stripRound_year, stripRound_preMoney,
    stripRound_investment, stripRound_revenue, stripRound_liquidationPref,
    stripCompany_optionPoolTopUp, stripCompany_optionPoolPercent, stripStage_stack]
  rw [mkStage_strip, calculateOwnership_strip, validateOwnership_strip]
  split
  case h_1 u heq => rfl
  case h_2 e heq => rfl

theorem processRounds_strip (c : Company) :
    ∀ (rounds : List FundingRound) (pool inv : JNum) (prev : CapTableStage),
    processRounds (stripCompany c) (rounds.map stripRound) pool inv (stripStage prev) =
      (processRounds c rounds pool inv prev).map (List.map stripStage) := by
  intro rounds
  induction rounds with
  | nil => intro pool inv prev; rfl
  | cons r rs ih =>
      intro pool inv prev
      simp only [List.map_cons]
      unfold processRounds
      rw [stripCompany_founderShares, processRound_strip]
      cases h : processRound r c.founderShares pool inv c prev with
      | error e => rfl
      | ok stage =>
          have hmap : (Except.ok stage : Except JsError CapTableStage).map stripStage =
              .ok (stripStage stage) := rfl
          rw [hmap]
          dsimp only []
          rw [stripStage_optionPoolShares, stripStage_investorShares, ih]
          cases h2 : processRounds c rs stage.optionPoolShares stage.investorShares stage <;> rfl

theorem getInitialOptionPoolShares_strip (c : Company) :
    getInitialOptionPoolShares (stripCompany c) = getInitialOptionPoolShares c := rfl

theorem head_year_strip (l : List FundingRound) :
    ((l.map stripRound).head?).map FundingRound.year = (l.head?).map FundingRound.year := by
  cases l <;> rfl

/-- Stripping the anti-dilution and discount-rate fields commutes with the
whole evolution pipeline: those two fields never feed the dilution math,
the validation, the sorting or the error messages. -/
theorem calculateEvolution_strip (c : Company) :
    calculateEvolution (stripCompany c) = stripEvo (calculateEvolution c) := by
  unfold calculateEvolution stripEvo
  rw [companyValidate_strip]
  cases hcv : companyValidate c with
  | error e => rfl
  | ok u =>
      dsimp only []
      rw [getRoundsByYear_strip, stripCompany_founderShares,
        getInitialOptionPoolShares_strip, head_year_strip]
      cases hinc : createIncorporationStage c.founderShares (getInitialOptionPoolShares c)
          (((getRoundsByYear c).head?).map FundingRound.year) with
      | error e => rfl
      | ok incorp =>
          dsimp only []
          have hself : stripStage incorp = incorp := by
            refine stripStage_of_round_none ?_
            simp only [createIncorporationStage] at hinc
            split at hinc
            · cases hinc
              rw [calculateOwnership_round]
              rfl
            · exact absurd hinc (by simp)
          conv_lhs => rw [← hself]
          rw [processRounds_strip]
          cases hpr : processRounds c (getRoundsByYear c) (getInitialOptionPoolShares c)
              (.fin 0) incorp with
          | error e => rfl
          | ok rest => rfl

theorem evoStages_strip_eq {c1 c2 : Company}
    (h : stripEvo (calculateEvolution c1) = stripEvo (calculateEvolution c2)) :
    (evoStages c1).map stripStage = (evoStages c2).map stripStage := by
  unfold evoStages
  cases h1 : calculateEvolution c1 with
  | ok l1 =>
      cases h2 : calculateEvolution c2 with
      | ok l2 =>
          rw [h1, h2] at h
          simpa [stripEvo] using h
      | error e2 => rw [h1, h2] at h; simp [stripEvo] at h
  | error e1 =>
      cases h2 : calculateEvolution c2 with
      | ok l2 => rw [h1, h2] at h; simp [stripEvo] at h
      | error e2 => simp

theorem map_strip_proj {α : Type} {l1 l2 : List CapTableStage}
    (hs : l1.map stripStage = l2.map stripStage) (g : CapTableStage → α)
    (hg : g ∘ stripStage = g) : l1.map g = l2.map g := by
  have h := congrArg (List.map g) hs
  rwa [List.map_map, List.map_map, hg] at h

/-- C9: two companies identical except for the antiDilution and
discountRate values of their rounds (that is, with equal stripCompany
images) produce evolution results that are identical up to those fields:
the same success-or-error outcome with the same error, and in every stage
identical share counts (total, founder, option-pool, investor,
new-investor), identical ownership percentages and identical
liquidation-stack entries (their ownershipPercent values included).  The
dilution math never reads the two fields. -/
theorem C9_antidilution_discount_irrelevant (c1 c2 : Company)
    (h : stripCompany c1 = stripCompany c2) :
    stripEvo (calculateEvolution c1) = stripEvo (calculateEvolution c2) ∧
    (evoStages c1).map CapTableStage.totalShares =
      (evoStages c2).map CapTableStage.totalShares ∧
    (evoStages c1).map CapTableStage.founderShares =
      (evoStages c2).map CapTableStage.founderShares ∧
    (evoStages c1).map CapTableStage.optionPoolShares =
      (evoStages c2).map CapTableStage.optionPoolShares ∧
    (evoStages c1).map CapTableStage.investorShares =
      (evoStages c2).map CapTableStage.investorShares ∧
    (evoStages c1).map CapTableStage.newInvestorShares =
      (evoStages c2).map CapTableStage.newInvestorShares ∧
    (evoStages c1).map CapTableStage.founderOwnership =
      (evoStages c2).map CapTableStage.founderOwnership ∧
    (evoStages c1).map CapTableStage.optionPoolOwnership =
      (evoStages c2).map CapTableStage.optionPoolOwnership ∧
    (evoStages c1).map CapTableStage.investorOwnership =
      (evoStages c2).map CapTableStage.investorOwnership ∧
    (evoStages c1).map CapTableStage.newInvestorOwnership =
      (evoStages c2).map CapTableStage.newInvestorOwnership ∧
    (evoStages c1).map CapTableStage.liquidationStack =
      (evoStages c2).map CapTableStage.liquidationStack := by
  have hEvo : stripEvo (calculateEvolution c1) = stripEvo (calculateEvolution c2) := by
    rw [← calculateEvolution_strip, ← calculateEvolution_strip, h]
  have hs := evoStages_strip_eq hEvo
  exact ⟨hEvo,
    map_strip_proj hs _ rfl, map_strip_proj hs _ rfl, map_strip_proj hs _ rfl,
    map_strip_proj hs _ rfl, map_strip_proj hs _ rfl, map_strip_proj hs _ rfl,
    map_strip_proj hs _ rfl, map_strip_proj hs _ rfl, map_strip_proj hs _ rfl,
    map_strip_proj hs _ rfl⟩

/-- C9 witness: the concrete pair adCompanyA, adCompanyB differing only in
the Seed round's anti-dilution tag and discount rate. -/
theorem C9_antidilution_discount_witness :
    stripEvo (calculateEvolution adCompanyA) = stripEvo (calculateEvolution adCompanyB) ∧
    (evoStages adCompanyA).map CapTableStage.totalShares =
      (evoStages adCompanyB).map CapTableStage.totalShares ∧
    (evoStages adCompanyA).map CapTableStage.founderShares =
      (evoStages adCompanyB).map CapTableStage.founderShares ∧
    (evoStages adCompanyA).map CapTableStage.optionPoolShares =
      (evoStages adCompanyB).map CapTableStage.optionPoolShares ∧
    (evoStages adCompanyA).map CapTableStage.investorShares =
      (evoStages adCompanyB).map CapTableStage.investorShares ∧
    (evoStages adCompanyA).map CapTableStage.newInvestorShares =
      (evoStages adCompanyB).map CapTableStage.newInvestorShares ∧
    (evoStages adCompanyA).map CapTableStage.founderOwnership =
      (evoStages adCompanyB).map CapTableStage.founderOwnership ∧
    (evoStages adCompanyA).map CapTableStage.optionPoolOwnership =
      (evoStages adCompanyB).map CapTableStage.optionPoolOwnership ∧
    (evoStages adCompanyA).map CapTableStage.investorOwnership =
      (evoStages adCompanyB).map CapTableStage.investorOwnership ∧
    (evoStages adCompanyA).map CapTableStage.newInvestorOwnership =
      (evoStages adCompanyB).map CapTableStage.newInvestorOwnership ∧
    (evoStages adCompanyA).map CapTableStage.liquidationStack =
      (evoStages adCompanyB).map CapTableStage.liquidationStack :=
  C9_antidilution_discount_irrelevant adCompanyA adCompanyB (by decide)

theorem jadd_fin_inf (a : ℚ) : jadd (.fin a) .inf = .inf := rfl

theorem jadd_inf_fin (a : ℚ) : jadd .inf (.fin a) = .inf := rfl

theorem jadd_inf_inf : jadd .inf .inf = .inf := rfl

theorem jadd_inf_nan : jadd .inf .nan = .nan := rfl

theorem jsub_inf_inf : jsub .inf .inf = .nan := rfl

theorem jmax2_fin_nan (a : ℚ) : jmax2 (.fin a) .nan = .nan := rfl

theorem jfloor_inf : jfloor .inf = .inf := rfl

theorem jle_inf_inf : jle .inf .inf = true := rfl

theorem jsOrZero_eq_self_of_fin {v : JNum} (q : ℚ) (h : v = .fin q) : jsOrZero v = v := by
  subst h; exact jsOrZero_fin q

theorem jmul_inf_fin_pos {b : ℚ} (h : 0 < b) : jmul .inf (.fin b) = .inf := by
  simp [jmul, h, ne_of_gt h]

theorem jdiv_inf_fin_nonneg {b : ℚ} (h : 0 ≤ b) : jdiv .inf (.fin b) = .inf := by
  simp [jdiv, h]

theorem jdiv_fin_zero_pos {a : ℚ} (h : 0 < a) : jdiv (.fin a) (.fin 0) = .inf := by
  simp [jdiv, ne_of_gt h, h]

/-- What a successful _processRound call says about the produced stage:
its share fields are the constructor-defaulted versions of the quantities
the source computes, its ownership validation passed, and if its total
shares ended up (strictly) equal to 0 its ownership percentages are still
the constructor zeros. -/
theorem processRound_ok_spec {r : FundingRound} {fS pool inv : JNum} {c : Company}
    {prev st : CapTableStage}
    (h : processRound r fS pool inv c prev = .ok st) :
    st.founderShares = jsOrZero fS ∧
    st.optionPoolShares = jsOrZero (if c.optionPoolTopUp then
        jadd pool (topUpSharesOf c (jadd (jadd fS pool) inv)
          (newInvestorSharesOf (jadd (jadd fS pool) inv) (investorPctOf r)) pool)
      else pool) ∧
    st.investorShares = jsOrZero (jadd inv
      (newInvestorSharesOf (jadd (jadd fS pool) inv) (investorPctOf r))) ∧
    st.totalShares = jsOrZero (jadd (jadd (jadd (jadd fS pool) inv)
      (newInvestorSharesOf (jadd (jadd fS pool) inv) (investorPctOf r)))
      (topUpSharesOf c (jadd (jadd fS pool) inv)
        (newInvestorSharesOf (jadd (jadd fS pool) inv) (investorPctOf r)) pool)) ∧
    exceptIsOk (validateOwnership st) = true ∧
    (jstrictEq st.totalShares (.fin 0) = true →
      st.founderOwnership = .fin 0 ∧ st.optionPoolOwnership = .fin 0 ∧
      st.investorOwnership = .fin 0) := by
  unfold processRound at h
  cases htu : c.optionPoolTopUp with
  | true =>
      simp only [htu, if_true] at h ⊢
      split at h
      case h_2 e heq => exact absurd h (by simp)
      case h_1 u heq =>
        cases h
        refine ⟨?_, ?_, ?_, ?_, ?_, ?_⟩
        · rw [(calculateOwnership_shares _).2.2.1]; rfl
        · rw [(calculateOwnership_shares _).2.2.2.1]
          simp [htu, mkStage, topUpSharesOf, newInvestorSharesOf, investorPctOf]
        · rw [(calculateOwnership_shares _).2.2.2.2]
          simp [mkStage, newInvestorSharesOf, investorPctOf]
        · rw [(calculateOwnership_shares _).2.1]
          simp [htu, mkStage, topUpSharesOf, newInvestorSharesOf, investorPctOf]
        · rw [heq]; rfl
        · intro hz
          rw [(calculateOwnership_shares _).2.1] at hz
          unfold calculateOwnership
          rw [if_pos hz]
          exact ⟨rfl, rfl, rfl⟩
  | false =>
      simp only [htu, Bool.false_eq_true, if_false] at h ⊢
      split at h
      case h_2 e heq => exact absurd h (by simp)
      case h_1 u heq =>
        cases h
        refine ⟨?_, ?_, ?_, ?_, ?_, ?_⟩
        · rw [(calculateOwnership_shares _).2.2.1]; rfl
        · rw [(calculateOwnership_shares _).2.2.2.1]
          simp [mkStage]
        · rw [(calculateOwnership_shares _).2.2.2.2]
          simp [mkStage, newInvestorSharesOf, investorPctOf]
        · rw [(calculateOwnership_shares _).2.1]
          simp [mkStage, topUpSharesOf, newInvestorSharesOf, investorPctOf, htu,
            Bool.false_eq_true, if_false]
        · rw [heq]; rfl
        · intro hz
          rw [(calculateOwnership_shares _).2.1] at hz
          unfold calculateOwnership
          rw [if_pos hz]
          exact ⟨rfl, rfl, rfl⟩

/-- What a successful _createIncorporationStage call says about the
produced stage. -/
theorem createIncorporationStage_ok_spec {fS pool : JNum} {fy : Option JNum}
    {st : CapTableStage}
    (h : createIncorporationStage fS pool fy = .ok st) :
    st.founderShares = jsOrZero fS ∧
    st.optionPoolShares = jsOrZero pool ∧
    st.investorShares = .fin 0 ∧
    st.totalShares = jsOrZero (jadd fS pool) := by
  unfold createIncorporationStage at h
  dsimp only [] at h
  split at h
  case h_1 u heq =>
    cases h
    refine ⟨?_, ?_, ?_, ?_⟩
    · rw [(calculateOwnership_shares _).2.2.1]; rfl
    · rw [(calculateOwnership_shares _).2.2.2.1]; rfl
    · rw [(calculateOwnership_shares _).2.2.2.2]; rfl
    · rw [(calculateOwnership_shares _).2.1]; rfl
  case h_2 e heq => exact absurd h (by simp)

theorem investorPctOf_valid {r : FundingRound} {a b : ℚ}
    (hpre : r.preMoneyValuation = .fin a) (hinv : r.investment = .fin b)
    (ha : 1 ≤ a) (hb : 1 ≤ b) :
    investorPctOf r = .fin (b / (a + b) * 100) ∧
    0 < b / (a + b) * 100 ∧ b / (a + b) * 100 < 100 := by
  have hab : (0:ℚ) < a + b := by linarith
  have hb0 : (0:ℚ) < b := by linarith
  refine ⟨?_, ?_, ?_⟩
  · unfold investorPctOf
    rw [hpre, hinv, jadd_fin, jdiv_fin_of_ne _ (ne_of_gt hab), jmul_fin]
  · exact mul_pos (div_pos hb0 hab) (by norm_num)
  · have h1 : b / (a + b) < 1 := by
      rw [div_lt_one hab]; linarith
    nlinarith

theorem newInvestorSharesOf_fin {B w : ℚ} (hB : 0 ≤ B) (hw0 : 0 < w)
    (hw100 : w < 100) :
    ∃ n : ℚ, newInvestorSharesOf (.fin B) (.fin w) = .fin n ∧ 0 ≤ n := by
  have hden : (100:ℚ) - w ≠ 0 := by linarith
  refine ⟨((⌊B * w / (100 - w)⌋ : ℤ) : ℚ), ?_, ?_⟩
  · unfold newInvestorSharesOf
    rw [jmul_fin, jsub_fin, jdiv_fin_of_ne _ hden, jfloor_fin]
  · have hden2 : (0:ℚ) < 100 - w := by linarith
    have harg : (0:ℚ) ≤ B * w / (100 - w) :=
      div_nonneg (mul_nonneg hB (le_of_lt hw0)) (le_of_lt hden2)
    exact_mod_cast Int.floor_nonneg.mpr harg

theorem newInvestorSharesOf_inf {w : ℚ} (hw0 : 0 < w) (hw100 : w < 100) :
    newInvestorSharesOf .inf (.fin w) = .inf := by
  unfold newInvestorSharesOf
  rw [jmul_inf_fin_pos hw0, jsub_fin, jdiv_inf_fin_nonneg (by linarith), jfloor_inf]

theorem topUpSharesOf_fin {c : Company} {p B n pq : ℚ}
    (hp : c.optionPoolPercent = .fin p) (hB : 0 ≤ B) (hn : 0 ≤ n) :
    ∃ t : ℚ, topUpSharesOf c (.fin B) (.fin n) (.fin pq) = .fin t ∧ 0 ≤ t := by
  unfold topUpSharesOf
  cases htu : c.optionPoolTopUp with
  | false => exact ⟨0, by simp, le_refl 0⟩
  | true =>
      refine ⟨max 0 (((⌊(B + n) * p / 100⌋ : ℤ) : ℚ) - pq), ?_, le_max_left _ _⟩
      simp only [if_true]
      rw [hp, jadd_fin, jmul_fin, jdiv_fin_of_ne _ (by norm_num), jfloor_fin,
        jsub_fin, jmax2_fin]

/-- A stage whose three ownership percentages are all 0 fails
validateOwnership: the total is 100 away from 100, beyond the 0.1
tolerance. -/
theorem validateOwnership_zero_err {s : CapTableStage}
    (h1 : s.founderOwnership = .fin 0) (h2 : s.optionPoolOwnership = .fin 0)
    (h3 : s.investorOwnership = .fin 0) :
    exceptIsOk (validateOwnership s) = false := by
  unfold validateOwnership
  rw [h1, h2, h3]
  dsimp only []
  rw [jadd_fin, jadd_fin, jsub_fin]
  have he : (0:ℚ) + 0 + 0 - 100 = -100 := by norm_num
  rw [he]
  have hal : jabs (.fin (-100 : ℚ)) = .fin 100 := by
    show JNum.fin |(-100 : ℚ)| = .fin 100
    norm_num
  rw [hal, jgt_fin]
  norm_num [exceptIsOk]

/-- One step of the evolution loop preserves the invariant: from a good
state, a successful _processRound keeps the founder share count at the
validated value, does not decrease total shares from the previous stage,
and leaves the updated tracking variables and new stage in a good state. -/
theorem processRound_ok_good {r : FundingRound} {c : Company} {f p a b : ℚ}
    {pool inv : JNum} {prev st : CapTableStage}
    (hfc : c.founderShares = .fin f) (hf1 : 1 ≤ f)
    (hpc : c.optionPoolPercent = .fin p)
    (hpre : r.preMoneyValuation = .fin a) (ha : 1 ≤ a)
    (hinvst : r.investment = .fin b) (hb : 1 ≤ b)
    (hgood : GoodState f p pool inv prev.totalShares)
    (h : processRound r c.founderShares pool inv c prev = .ok st) :
    st.founderShares = .fin f ∧
    jle prev.totalShares st.totalShares = true ∧
    GoodState f p st.optionPoolShares st.investorShares st.totalShares := by
  obtain ⟨hsF, hsP, hsI, hsT, hok, hzero⟩ := processRound_ok_spec h
  rw [hfc] at hsF hsP hsI hsT
  obtain ⟨hw, hw0, hw100⟩ := investorPctOf_valid hpre hinvst ha hb
  rcases hgood with ⟨pq, iq, hpool, hinv, hpq, hiq, htot⟩ | ⟨hp100, hpoolI, htotI, hinvI⟩
  · subst hpool
    subst hinv
    simp only [jadd_fin] at hsP hsI hsT
    rw [hw] at hsP hsI hsT
    have hB : (0:ℚ) ≤ f + pq + iq := by linarith
    obtain ⟨n, hn, hn0⟩ := newInvestorSharesOf_fin hB hw0 hw100
    rw [hn] at hsP hsI hsT
    obtain ⟨t, ht, ht0⟩ := @topUpSharesOf_fin c p (f + pq + iq) n pq hpc hB hn0
    rw [ht] at hsP hsT
    simp only [jadd_fin, jsOrZero_fin] at hsI hsT
    refine ⟨by rw [hsF, jsOrZero_fin], ?_, ?_⟩
    · rw [htot, hsT, jle_fin, decide_eq_true_eq]
      linarith
    · left
      cases htu : c.optionPoolTopUp with
      | true =>
          simp only [htu, if_true, jadd_fin, jsOrZero_fin] at hsP
          exact ⟨pq + t, iq + n, hsP, hsI, by linarith, by linarith,
            by rw [hsT]; congr 1; ring⟩
      | false =>
          simp only [htu, Bool.false_eq_true, if_false, jsOrZero_fin] at hsP
          have htz : t = 0 := by
            have ht2 := ht
            unfold topUpSharesOf at ht2
            simp only [htu, Bool.false_eq_true, if_false] at ht2
            exact (JNum.fin.inj ht2).symm
          exact ⟨pq, iq + n, hsP, hsI, hpq, by linarith,
            by rw [hsT, htz]; congr 1; ring⟩
  · subst hpoolI
    have hbef : jadd (jadd (.fin f) .inf) inv = .inf := by
      rcases hinvI with hI | ⟨iq, hIq, hiq0⟩
      · rw [hI]
        rfl
      · rw [hIq]
        rfl
    rw [hbef, hw] at hsP hsI hsT
    have hnsi : newInvestorSharesOf .inf (.fin (b / (a + b) * 100)) = .inf :=
      newInvestorSharesOf_inf hw0 hw100
    rw [hnsi] at hsP hsI hsT
    cases htu : c.optionPoolTopUp with
    | true =>
        exfalso
        have htuS : topUpSharesOf c .inf .inf .inf = .nan := by
          unfold topUpSharesOf
          simp only [htu, if_true]
          rw [hpc, hp100, jadd_inf_inf,
            jmul_inf_fin_pos (by norm_num : (0:ℚ) < 100),
            jdiv_inf_fin_nonneg (by norm_num : (0:ℚ) ≤ 100),
            jfloor_inf, jsub_inf_inf, jmax2_fin_nan]
        rw [htuS, jadd_inf_inf, jadd_inf_nan, jsOrZero_nan] at hsT
        obtain ⟨hz1, hz2, hz3⟩ := hzero (by rw [hsT]; decide)
        have hbad := validateOwnership_zero_err hz1 hz2 hz3
        rw [hok] at hbad
        exact absurd hbad (by simp)
    | false =>
        have htuS : topUpSharesOf c .inf .inf .inf = .fin 0 := by
          unfold topUpSharesOf
          simp only [htu, Bool.false_eq_true, if_false]
        rw [htuS, jadd_inf_inf, jadd_inf_fin, jsOrZero_inf] at hsT
        simp only [htu, Bool.false_eq_true, if_false, jsOrZero_inf] at hsP
        have hinvI2 : st.investorShares = .inf := by
          rcases hinvI with hI | ⟨iq, hIq, -⟩
          · rw [hI] at hsI
            rw [hsI]
            rfl
          · rw [hIq] at hsI
            rw [hsI]
            rfl
        refine ⟨by rw [hsF, jsOrZero_fin], ?_, ?_⟩
        · rw [htotI, hsT]
          exact jle_inf_inf
        · exact .inr ⟨hp100, hsP, hsT, .inl hinvI2⟩

/-- The evolution loop preserves the invariant along a whole round list:
every produced stage carries the validated founder share count, and total
shares never decrease from each stage (the previous stage included) to the
next. -/
theorem processRounds_good {c : Company} {f p : ℚ}
    (hfc : c.founderShares = .fin f) (hf1 : 1 ≤ f)
    (hpc : c.optionPoolPercent = .fin p)
    (hrv : ∀ r ∈ c.rounds, validateFundingRound r = .ok ()) :
    ∀ (rs : List FundingRound), (∀ r ∈ rs, r ∈ c.rounds) →
    ∀ {pool inv : JNum} {prev : CapTableStage} {sts : List CapTableStage},
      GoodState f p pool inv prev.totalShares →
      processRounds c rs pool inv prev = .ok sts →
      (∀ s ∈ sts, s.founderShares = .fin f) ∧
      List.Chain' (fun x y => jle x.totalShares y.totalShares = true) (prev :: sts) := by
  intro rs
  induction rs with
  | nil =>
      intro _ pool inv prev sts hgood h
      unfold processRounds at h
      simp at h
      subst h
      exact ⟨by simp, by simp⟩
  | cons r rs ih =>
      intro hmem pool inv prev sts hgood h
      unfold processRounds at h
      cases hp1 : processRound r c.founderShares pool inv c prev with
      | error e => rw [hp1] at h; exact absurd h (by simp)
      | ok stage =>
          rw [hp1] at h
          dsimp only [] at h
          cases hp2 : processRounds c rs stage.optionPoolShares stage.investorShares stage with
          | error e => rw [hp2] at h; exact absurd h (by simp)
          | ok rest =>
              rw [hp2] at h
              simp at h
              subst h
              have hrmem : r ∈ c.rounds := hmem r (List.mem_cons_self _ _)
              obtain ⟨⟨a, hpre, ha⟩, ⟨b, hinvst, hb⟩⟩ :=
                validateFundingRound_ok_facts (hrv r hrmem)
              obtain ⟨hstF, hle, hgood2⟩ :=
                processRound_ok_good hfc hf1 hpc hpre ha hinvst hb hgood hp1
              obtain ⟨hrestF, hchain⟩ :=
                ih (fun x hx => hmem x (List.mem_cons_of_mem _ hx)) hgood2 hp2
              refine ⟨?_, List.Chain'.cons hle hchain⟩
              intro s hs
              rcases List.mem_cons.mp hs with rfl | hs2
              · exact hstF
              · exact hrestF s hs2

/-- C5: for every company accepted by calculateEvolution, in the returned
stage sequence totalShares is non-decreasing (in JS numeric order) from
each stage to the next, and founderShares carries the same value, namely
the validated company founder share count, in every stage. -/
theorem C5_share_monotonicity {c : Company} {stages : List CapTableStage}
    (h : calculateEvolution c = .ok stages) :
    (∀ s ∈ stages, s.founderShares = c.founderShares) ∧
    List.Chain' (fun x y => jle x.totalShares y.totalShares = true) stages := by
  obtain ⟨hcv, incorp, rest, hinc, hpr, rfl⟩ := calculateEvolution_ok_inv h
  obtain ⟨hvcd, hrounds⟩ := companyValidate_ok hcv
  obtain ⟨⟨f, hfc, hf1⟩, p, hpc, hp0, hp100⟩ := validateCompanyData_ok_facts hvcd
  obtain ⟨hiF, hiP, hiI, hiT⟩ := createIncorporationStage_ok_spec hinc
  rw [hfc] at hiF hiT
  have hincF : incorp.founderShares = .fin f := by rw [hiF, jsOrZero_fin]
  have hgood0 : GoodState f p (getInitialOptionPoolShares c) (.fin 0)
      incorp.totalShares := by
    rcases lt_or_eq_of_le hp100 with hplt | hpeq
    · left
      have hden : (100:ℚ) - p ≠ 0 := by linarith
      have hpool0 : getInitialOptionPoolShares c =
          .fin ((⌊f * p / (100 - p)⌋ : ℤ) : ℚ) := by
        unfold getInitialOptionPoolShares
        rw [hfc, hpc, jmul_fin, jsub_fin, jdiv_fin_of_ne _ hden, jfloor_fin]
      have hpq0 : (0:ℚ) ≤ ((⌊f * p / (100 - p)⌋ : ℤ) : ℚ) := by
        have harg : (0:ℚ) ≤ f * p / (100 - p) :=
          div_nonneg (mul_nonneg (by linarith) hp0) (by linarith)
        exact_mod_cast Int.floor_nonneg.mpr harg
      refine ⟨_, 0, hpool0, rfl, hpq0, le_refl 0, ?_⟩
      rw [hiT, hpool0, jadd_fin, jsOrZero_fin]
      congr 1
      ring
    · right
      have hpool0 : getInitialOptionPoolShares c = .inf := by
        unfold getInitialOptionPoolShares
        rw [hfc, hpc, hpeq, jmul_fin, jsub_fin]
        have h100 : (100:ℚ) - 100 = 0 := by norm_num
        rw [h100, jdiv_fin_zero_pos (by nlinarith : (0:ℚ) < f * 100), jfloor_inf]
      refine ⟨hpeq, hpool0, ?_, .inr ⟨0, rfl, le_refl 0⟩⟩
      rw [hiT, hpool0, jadd_fin_inf, jsOrZero_inf]
  obtain ⟨hrF, hch⟩ := processRounds_good hfc hf1 hpc hrounds (getRoundsByYear c)
    (fun x hx => getRoundsByYear_mem hx) hgood0 hpr
  refine ⟨?_, hch⟩
  intro s hs
  rw [hfc]
  rcases List.mem_cons.mp hs with rfl | hs2
  · exact hincF
  · exact hrF s hs2

set_option maxHeartbeats 2000000 in
/-- The evolution of twoRoundCompany evaluates to the recorded three-stage
sequence. -/
theorem twoRoundEvolution_eq :
    calculateEvolution twoRoundCompany = .ok twoRoundStages := by
  have hv : companyValidate twoRoundCompany = .ok () := by decide
  simp only [twoRoundCompany, mkRound] at hv
  have h1 : ("Incorporation" = "") = False := by decide
  have h2 : ("Seed" = "") = False := by decide
  have h3 : ("Series A" = "") = False := by decide
  norm_num [calculateEvolution, hv, twoRoundCompany, mkRound, twoRoundStages,
    getRoundsByYear, sortInsertByYear, getInitialOptionPoolShares,
    createIncorporationStage, incorporationYear, processRounds, processRound, mkStage,
    calculateOwnership, calculatePercentage, validateOwnership, round1, round_eq,
    jadd, jsub, jmul, jdiv, jfloor, jabs, jmax2, jlt, jle, jgt, jIsNaN, jstrictEq,
    jTruthy, jsOrNum, jsOrZero, jsOrStr, h1, h2, h3, CURRENT_YEAR, List.foldl]

/-- C5 witness: the monotonicity and founder-constancy invariants on the
concrete three-stage run of twoRoundCompany. -/
theorem C5_share_monotonicity_witness :
    calculateEvolution twoRoundCompany = .ok twoRoundStages ∧
    ((∀ s ∈ twoRoundStages, s.founderShares = twoRoundCompany.founderShares) ∧
     List.Chain' (fun x y => jle x.totalShares y.totalShares = true) twoRoundStages) :=
  ⟨twoRoundEvolution_eq, C5_share_monotonicity twoRoundEvolution_eq⟩
